import Mathlib

/-!
# Verification of the zodiac-backend invoice pipeline

A shallow embedding, in Lean 4, of the core XML → X12/EDI conversion and
validation pipeline of `app/api/invoices.py`, together with proofs and
refutations of the specified properties.

Python strings are modelled as `List Char` (`Str`); Python's `None`-able
values as `Option`; Python exceptions as `Option` failure (`none`).
Binary floating point (`float`) is modelled by exact rational arithmetic
with round-half-to-even, which agrees with CPython on the short decimal
literals exercised here.  I/O, storage and logging are abstracted away:
each embedded function takes the file *contents* (or the parsed tree)
directly, exactly as the Python code sees them after its storage reads.
-/

/-- Python `str` modelled as a list of code points. -/
abbrev Str := List Char

/-! ## Python string primitives -/

/-- The ASCII whitespace characters stripped by Python `str.strip()`
(the full Unicode set is not needed for the data handled here). -/
def isPySpace (c : Char) : Bool :=
  c = ' ' ∨ c = '\t' ∨ c = '\n' ∨ c = '\x0d' ∨ c = '\x0b' ∨ c = '\x0c'

/-- `s.lstrip()` -/
def pyStripLeft (s : Str) : Str := s.dropWhile isPySpace

/-- `s.rstrip()` -/
def pyStripRight (s : Str) : Str := (s.reverse.dropWhile isPySpace).reverse

/-- Python `s.strip()`. -/
def pyStrip (s : Str) : Str := pyStripLeft (pyStripRight s)

/-- Python `s.lstrip("0")`: drop leading `'0'` characters. -/
def pyLstripZeros (s : Str) : Str := s.dropWhile (fun c => c = '0')

/-- Python `s.ljust(w)`: pad on the right with spaces to width `w`. -/
def pyLjust (w : Nat) (s : Str) : Str := s ++ List.replicate (w - s.length) ' '

/-- Python `s.zfill(w)`: pad on the left with `'0'` to width `w`,
keeping a leading sign in place. -/
def pyZfill (w : Nat) (s : Str) : Str :=
  if w ≤ s.length then s
  else
    match s with
    | [] => List.replicate w '0'
    | c :: rest =>
      if c = '+' ∨ c = '-' then c :: (List.replicate (w - s.length) '0' ++ rest)
      else List.replicate (w - s.length) '0' ++ s

/-- Python `s.startswith(p)`. -/
def pyStartswith (p s : Str) : Bool := p.isPrefixOf s

/-- Python `s.split(c)` for a single-character separator. -/
def pySplit (c : Char) : Str → List Str
  | [] => [[]]
  | a :: rest =>
    if a = c then [] :: pySplit c rest
    else
      match pySplit c rest with
      | [] => [[a]]
      | s :: ss => (a :: s) :: ss

/-- Python `sep.join(xs)`. -/
def pyJoin (sep : Str) : List Str → Str
  | [] => []
  | [s] => s
  | s :: rest => s ++ sep ++ pyJoin sep rest

/-- ASCII `str.lower()` on one character. -/
def lowerChar (c : Char) : Char :=
  if 'A' ≤ c ∧ c ≤ 'Z' then Char.ofNat (c.toNat + 32) else c

/-- ASCII `str.upper()` on one character. -/
def upperChar (c : Char) : Char :=
  if 'a' ≤ c ∧ c ≤ 'z' then Char.ofNat (c.toNat - 32) else c

/-- ASCII `str.lower()` (the city names compared here are ASCII). -/
def pyLower (s : Str) : Str := s.map lowerChar

/-- ASCII `str.upper()`. -/
def pyUpper (s : Str) : Str := s.map upperChar

/-! ## Python numeric primitives -/

/-- Value of a digit string (caller guarantees the digits). -/
def digitsToNat (s : Str) : Nat := s.foldl (fun a c => a * 10 + (c.toNat - 48)) 0

/-- ASCII decimal digit test (`'0'` has code point 48, `'9'` has 57). -/
def isDigitC (c : Char) : Bool := 48 ≤ c.toNat && c.toNat ≤ 57

def allDigits (s : Str) : Bool := s.all isDigitC

/-- Python `int(s)` on decimal text: optional surrounding whitespace,
optional sign, then a nonempty digit run (digit-group underscores are not
modelled; no input here contains them).  `none` models `ValueError`. -/
def pyInt (s : Str) : Option Int :=
  match pyStrip s with
  | [] => none
  | c :: rest =>
    if c = '-' then
      if rest ≠ [] ∧ allDigits rest then some (-(digitsToNat rest : Int)) else none
    else if c = '+' then
      if rest ≠ [] ∧ allDigits rest then some ((digitsToNat rest : Int)) else none
    else if allDigits (c :: rest) then some ((digitsToNat (c :: rest) : Int)) else none

/-- Split a string at the first character satisfying `p`; the second
component is `none` when no such character occurs. -/
def breakAt (p : Char → Bool) : Str → Str × Option Str
  | [] => ([], none)
  | c :: rest =>
    if p c then ([], some rest)
    else
      let (a, b) := breakAt p rest
      (c :: a, b)

/-- The exact value of a finite decimal numeral: `num * 10 ^ exp`.
This models the value CPython obtains from `float(...)` for the short
decimal literals occurring here (binary rounding of `float` is
idealized to exact decimal arithmetic; no claim depends on it). -/
structure PyNum where
  num : Int
  exp : Int
deriving DecidableEq, Repr

/-- Parse the unsigned mantissa of a Python float literal:
`digits`, `digits.digits`, `digits.` or `.digits`. -/
def parseMantissa (s : Str) : Option (Nat × Nat) :=
  match breakAt (fun c => c = '.') s with
  | (ip, none) =>
    if ip ≠ [] ∧ allDigits ip then some (digitsToNat ip, 0) else none
  | (ip, some fp) =>
    if (ip ≠ [] ∨ fp ≠ []) ∧ allDigits ip ∧ allDigits fp then
      some (digitsToNat (ip ++ fp), fp.length)
    else none

/-- Parse an optionally signed nonempty digit run (a float exponent). -/
def parseExp (s : Str) : Option Int :=
  match s with
  | [] => none
  | c :: rest =>
    if c = '-' then
      if rest ≠ [] ∧ allDigits rest then some (-(digitsToNat rest : Int)) else none
    else if c = '+' then
      if rest ≠ [] ∧ allDigits rest then some ((digitsToNat rest : Int)) else none
    else if allDigits (c :: rest) then some ((digitsToNat (c :: rest) : Int)) else none

/-- Python `float(s)` on finite decimal text (`inf`/`nan` spellings are
not modelled; no input here uses them).  `none` models `ValueError`. -/
def pyFloat (s : Str) : Option PyNum := do
  let t := pyStrip s
  let (sgn, u) ←
    match t with
    | [] => none
    | c :: rest =>
      if c = '-' then some ((-1 : Int), rest)
      else if c = '+' then some ((1 : Int), rest)
      else some ((1 : Int), t)
  match breakAt (fun c => c = 'e' ∨ c = 'E') u with
  | (m, none) => do
    let (v, fl) ← parseMantissa m
    pure ⟨sgn * v, -(fl : Int)⟩
  | (m, some ex) => do
    let (v, fl) ← parseMantissa m
    let e ← parseExp ex
    pure ⟨sgn * v, e - fl⟩

/-- `v ≤ 0` on the exact value of a `PyNum` (the power of ten is positive,
so only the sign of the numerator matters). -/
def PyNum.le0 (v : PyNum) : Bool := v.num ≤ 0

/-- Round `n / 10^k` to an integer, half to even (Python `round`). -/
def roundHalfEven (n : Int) (k : Nat) : Int :=
  let d : Int := (10 : Int) ^ k
  let q := Int.fdiv n d
  let r := n - q * d
  if 2 * r < d then q
  else if d < 2 * r then q + 1
  else if q % 2 = 0 then q else q + 1

/-- `int(round(value * 10^2))` on the exact value of a `PyNum`. -/
def PyNum.scaled100 (v : PyNum) : Int :=
  let e := v.exp + 2
  if 0 ≤ e then v.num * (10 : Int) ^ e.toNat
  else roundHalfEven v.num (-e).toNat

/-- Decimal digit characters for `str(n)`. -/
def digitChar : Nat → Char
  | 0 => '0' | 1 => '1' | 2 => '2' | 3 => '3' | 4 => '4'
  | 5 => '5' | 6 => '6' | 7 => '7' | 8 => '8' | _ => '9'

/-- Fuel-driven decimal rendering of a natural number (structural, so the
kernel can evaluate it). -/
def natToCharsAux : Nat → Nat → Str
  | 0, _ => []
  | fuel + 1, n =>
    if n < 10 then [digitChar n]
    else natToCharsAux fuel (n / 10) ++ [digitChar (n % 10)]

/-- Python `str(n)` for a natural number. -/
def natToChars (n : Nat) : Str := natToCharsAux (n + 1) n

/-- Python `str(i)` for an integer. -/
def intToChars (i : Int) : Str :=
  if i < 0 then '-' :: natToChars i.natAbs else natToChars i.toNat

/-! ## Dates -/

structure PyDate where
  year : Nat
  month : Nat
  day : Nat
deriving DecidableEq, Repr

def isLeapYear (y : Nat) : Bool := y % 4 = 0 ∧ (y % 100 ≠ 0 ∨ y % 400 = 0)

def daysInMonth (y m : Nat) : Nat :=
  if m = 2 then (if isLeapYear y then 29 else 28)
  else if m = 4 ∨ m = 6 ∨ m = 9 ∨ m = 11 then 30
  else 31

/-- `datetime.strptime(s, "%Y-%m-%d")`: exactly 4 year digits, 1–2 month
digits, 1–2 day digits, and a real calendar date (else `ValueError`,
i.e. `none`). -/
def parseYMD (s : Str) : Option PyDate :=
  match pySplit '-' s with
  | [ys, ms, ds] =>
    if ys.length = 4 ∧ allDigits ys ∧
        (ms.length = 1 ∨ ms.length = 2) ∧ allDigits ms ∧
        (ds.length = 1 ∨ ds.length = 2) ∧ allDigits ds then
      let y := digitsToNat ys
      let m := digitsToNat ms
      let d := digitsToNat ds
      if 1 ≤ y ∧ 1 ≤ m ∧ m ≤ 12 ∧ 1 ≤ d ∧ d ≤ daysInMonth y m then
        some ⟨y, m, d⟩
      else none
    else none
  | _ => none

/-- Zero-pad a number to (at least) two digits, as `strftime` does. -/
def pad2 (n : Nat) : Str := pyZfill 2 (natToChars n)

/-- `date.strftime("%Y%m%d")`. -/
def formatYMD8 (d : PyDate) : Str := pyZfill 4 (natToChars d.year) ++ pad2 d.month ++ pad2 d.day

/-- The `datetime.now()` value observed by one conversion run. -/
structure PyDateTime where
  year : Nat
  month : Nat
  day : Nat
  hour : Nat
  minute : Nat
deriving DecidableEq, Repr

/-- `now.strftime("%Y%m%d")`. -/
def fmtYMD (t : PyDateTime) : Str := pyZfill 4 (natToChars t.year) ++ pad2 t.month ++ pad2 t.day

/-- `now.strftime("%y%m%d")`. -/
def fmtYYMMDD (t : PyDateTime) : Str := pad2 (t.year % 100) ++ pad2 t.month ++ pad2 t.day

/-- `now.strftime("%H%M")`. -/
def fmtHM (t : PyDateTime) : Str := pad2 t.hour ++ pad2 t.minute

/-! ## XML element trees

`xml.etree.ElementTree` elements: a tag, attributes, optional text and a
list of children.  A mutual inductive (rather than a nested `List Elem`)
keeps every recursion structural, so the kernel can evaluate the model on
concrete documents.  Namespace-prefixed tags such as `cbc:ID` stand for
the resolved qualified names; the prefix map used by the source is fixed
and injective, so this renaming is faithful. -/

mutual
inductive Elem where
  | mk (tag : String) (attrs : List (String × String)) (text : Option Str) (children : ElemList)
inductive ElemList where
  | nil
  | cons (e : Elem) (es : ElemList)
end

def ElemList.toList : ElemList → List Elem
  | .nil => []
  | .cons e es => e :: es.toList

def elemListOf : List Elem → ElemList
  | [] => .nil
  | e :: es => .cons e (elemListOf es)

def Elem.tag : Elem → String
  | .mk t _ _ _ => t

def Elem.attrs : Elem → List (String × String)
  | .mk _ a _ _ => a

def Elem.text : Elem → Option Str
  | .mk _ _ x _ => x

def Elem.kids : Elem → List Elem
  | .mk _ _ _ ks => ks.toList

/-- `elem.get(key)` — attribute lookup. -/
def Elem.get (e : Elem) (k : String) : Option String :=
  (e.attrs.find? (fun p => p.1 = k)).map Prod.snd

mutual
/-- All proper descendants of an element, in document (preorder) order. -/
def Elem.descList : Elem → List Elem
  | .mk _ _ _ ks => ElemList.descAll ks
def ElemList.descAll : ElemList → List Elem
  | .nil => []
  | .cons e es => e :: (Elem.descList e ++ ElemList.descAll es)
end

/-- Python truthiness of an `Element`: true iff it has children
(`len(elem) != 0`) — the well-known ElementTree pitfall. -/
def Elem.truthy (e : Elem) : Bool := !e.kids.isEmpty

/-- One step of the restricted ElementPath language used by the source:
`/tag` (child) or `//tag` (descendant). -/
inductive PathStep where
  | child (tag : String)
  | desc (tag : String)

def taggedElems (t : String) (es : List Elem) : List Elem :=
  es.filter (fun e => e.tag = t)

def PathStep.elems : PathStep → Elem → List Elem
  | .child t, e => taggedElems t e.kids
  | .desc t, e => taggedElems t e.descList

/-- `elem.findall(path)` for the paths used by the source. -/
def Elem.findall (root : Elem) (p : List PathStep) : List Elem :=
  p.foldl (fun es s => es.flatMap s.elems) [root]

/-- `elem.find(path)`: first match in document order, `None` if absent. -/
def Elem.find (root : Elem) (p : List PathStep) : Option Elem :=
  (root.findall p).head?

/-- Plain element constructor (no attributes). -/
def el (tag : String) (text : Option Str) (kids : List Elem) : Elem :=
  .mk tag [] text (elemListOf kids)

/-- Element constructor with attributes. -/
def elA (tag : String) (attrs : List (String × String)) (text : Option Str)
    (kids : List Elem) : Elem :=
  .mk tag attrs text (elemListOf kids)

/-! ## Converter field extraction (`app/api/invoices.py` 1055–1156) -/

/-- `_X12ControlNumbers` fields, lines 1055–1062. -/
structure X12ControlNumbers where
  interchange_control : Str
  group_control : Str
  transaction_control : Str
deriving DecidableEq, Repr

/-- One field of `_X12ControlNumbers.__init__`:
`(elem.text[:w] if elem else dflt).zfill(w)`.
The guard `if elem` is Python *truthiness* of the ElementTree element —
false when the element is missing **or has no children** — and
`elem.text[:w]` raises (`none`) when the element is truthy but its text
is `None`. -/
def controlField (root : Elem) (p : List PathStep) (w : Nat) (dflt : Str) : Option Str :=
  match Elem.find root p with
  | some e =>
    if e.truthy then (e.text).map (fun s => pyZfill w (s.take w))
    else some (pyZfill w dflt)
  | none => some (pyZfill w dflt)

/-- `_X12ControlNumbers.__init__` (lines 1055–1062). -/
def X12ControlNumbers.derive (root : Elem) : Option X12ControlNumbers := do
  let ic ← controlField root [.desc ("cbc:ID")] 9 (("000000000").data)
  let gc ← controlField root [.desc ("cac:OrderReference"), .child ("cbc:ID")] 6 (("000000").data)
  let tc ← controlField root [.desc ("cac:OriginatorDocumentReference"), .child ("cbc:ID")] 4
    (("0000").data)
  pure ⟨ic, gc, tc⟩

/-- `_format_number(s)` with the default `decimal_places=2`
(lines 1064–1069): `str(int(round(float(s) * 100)))`, `"0"` on parse
failure. -/
def format_number (s : Str) : Str :=
  match pyFloat s with
  | some v => intToChars v.scaled100
  | none => ("0").data

/-- The scheme-id → X12 qualifier table of `_extract_party_info`. -/
def qualifier_map : List (String × Str) :=
  [(("0002"), ("01").data), (("0007"), ("14").data), (("0009"), ("33").data),
   (("0037"), ("94").data), (("0060"), ("N1").data), (("0088"), ("12").data),
   (("0160"), ("98").data), (("9930"), ("93").data), (("0096"), ("24").data)]

def qualifierLookup (sid : String) : Str :=
  match qualifier_map.find? (fun p => p.1 = sid) with
  | some p => p.2
  | none => ("ZZ").data

structure PartyInfo where
  name : Str
  id : Str
  qualifier : Str
deriving DecidableEq, Repr

/-- `_extract_party_info` (lines 1071–1100). -/
def extract_party_info (root : Elem) (party_path : List PathStep) : PartyInfo :=
  match Elem.find root party_path with
  | some party =>
    let name_elem := Elem.find party [.desc ("cbc:Name")]
    let endpoint_elem := Elem.find party [.desc ("cbc:EndpointID")]
    let qualifier : Str :=
      match endpoint_elem with
      | some ep =>
        match ep.get ("schemeID") with
        | some sid => if sid ≠ ("") then qualifierLookup sid else ("ZZ").data
        | none => ("ZZ").data
      | none => ("ZZ").data
    let endpoint_id : Str :=
      match endpoint_elem with
      | some ep =>
        match ep.text with
        | some s => if s ≠ [] then pyStrip s else ("UNKNOWN").data
        | none => ("UNKNOWN").data
      | none => ("UNKNOWN").data
    let endpoint_id := (pyLjust 15 endpoint_id).take 15
    { name :=
        match name_elem with
        | some ne =>
          match ne.text with
          | some s => if s ≠ [] then pyStrip s else ("UNKNOWN").data
          | none => ("UNKNOWN").data
        | none => ("UNKNOWN").data
      id := endpoint_id
      qualifier := qualifier }
  | none => { name := ("UNKNOWN").data, id := pyLjust 15 (("UNKNOWN").data), qualifier := ("ZZ").data }

structure PostalAddress where
  street : Str
  city : Str
  postal : Str
  country : Str
deriving DecidableEq, Repr

/-- Text of a child element, `""` when missing/empty (`_extract_postal_address` idiom). -/
def childText (a : Elem) (p : List PathStep) : Str :=
  match Elem.find a p with
  | some e =>
    match e.text with
    | some s => if s ≠ [] then pyStrip s else []
    | none => []
  | none => []

/-- `_extract_postal_address` (lines 1102–1115). -/
def extract_postal_address (root : Elem) (party_path : List PathStep) : PostalAddress :=
  match Elem.find root (party_path ++ [.child ("cac:PostalAddress")]) with
  | some address =>
    { street := childText address [.child ("cbc:StreetName")]
      city := childText address [.child ("cbc:CityName")]
      postal := childText address [.child ("cbc:PostalZone")]
      country := childText address [.child ("cac:Country"), .child ("cbc:IdentificationCode")] }
  | none => { street := [], city := [], postal := [], country := [] }

/-- `_map_address` (lines 1117–1128): region code, postal, country. -/
def map_address (a : PostalAddress) : Str × Str × Str :=
  let state : Str :=
    if pyLower a.city = ("north sydney").data then ("NS").data
    else if pyLower a.city = ("port lincoln").data then ("SA").data
    else ("XX").data
  let country : Str := if pyUpper a.country = ("AU").data then ("AUS").data else a.country
  (state, a.postal, country)

/-- `_create_ISA_segment` (lines 1130–1156): sixteen fixed-width data
elements joined with `*` and terminated by `~`, with no padding applied
to the joined segment. -/
def create_ISA_segment (supplier customer : PartyInfo) (cn : X12ControlNumbers)
    (now : PyDateTime) : Str :=
  let isa01 := ("00").data
  let isa02 := List.replicate 10 ' '
  let isa03 := ("00").data
  let isa04 := List.replicate 10 ' '
  let isa05 := pyLjust 2 (supplier.qualifier.take 2)
  let isa06 := pyLjust 15 (supplier.id.take 15)
  let isa07 := pyLjust 2 (customer.qualifier.take 2)
  let isa08 := pyLjust 15 (customer.id.take 15)
  let isa09 := fmtYYMMDD now
  let isa10 := fmtHM now
  let isa11 := ("U").data
  let isa12 := ("00401").data
  let isa13 := pyZfill 9 cn.interchange_control
  let isa14 := ("0").data
  let isa15 := ("P").data
  let isa16 := (">").data
  pyJoin (("*").data)
    [("ISA").data, isa01, isa02, isa03, isa04, isa05, isa06, isa07, isa08,
      isa09, isa10, isa11, isa12, isa13, isa14, isa15, isa16] ++ ("~").data

/-! ## The XML → X12 converter (`_convert_xml_to_x12_content`, lines 1194–1408)

The Python function builds the list `x12_segments` sequentially and joins
it with newlines; any exception anywhere makes it return `None`.  The
embedding names each segment-producing expression, splits the function
into its fallible steps (control numbers, issue-date parse, due-date
parse, hash total, `next(...)` for the ST index) threaded through
`Option`, and a pure assembly `buildPre` of the segment list before `SE`.
In the `Option` model the placement of a failure point in the sequence is
unobservable, so this faithful regrouping preserves the function
extensionally. -/

def supplierPartyPath : List PathStep :=
  [.desc ("cac:AccountingSupplierParty"), .child ("cac:Party")]

def customerPartyPath : List PathStep :=
  [.desc ("cac:AccountingCustomerParty"), .child ("cac:Party")]

/-- The pervasive `elem is not None and elem.text` idiom: the raw text
when the element exists and its text is a nonempty string. -/
def truthyText (root : Elem) (p : List PathStep) : Option Str :=
  match Elem.find root p with
  | some e =>
    match e.text with
    | some s => if s ≠ [] then some s else none
    | none => none
  | none => none

/-- `supplier["id"] = "SENDERID".ljust(15)` when the extracted id is
`UNKNOWN` (lines 1218–1219). -/
def fixSupplier (pi : PartyInfo) : PartyInfo :=
  if pyStrip pi.id = ("UNKNOWN").data then { pi with id := pyLjust 15 (("SENDERID").data) } else pi

/-- `customer["id"] = "RECEIVERID".ljust(15)` when the extracted id is
`UNKNOWN` (lines 1220–1221). -/
def fixCustomer (pi : PartyInfo) : PartyInfo :=
  if pyStrip pi.id = ("UNKNOWN").data then { pi with id := pyLjust 15 (("RECEIVERID").data) } else pi

/-- `invoice_date` and the `formatted_date` computation (lines 1250–1261);
`none` is the `ValueError` of `datetime.strptime`. -/
def formattedDateOpt (root : Elem) : Option Str :=
  let invoice_date : Str :=
    match truthyText root [.desc ("cbc:IssueDate")] with
    | some s => pyStrip s
    | none => []
  if invoice_date = ("0000-00-00").data then some []
  else if invoice_date ≠ [] then (parseYMD invoice_date).map formatYMD8
  else some []

/-- `invoice_number_elem` text for the BIG segment (line 1272). -/
def invoiceNumber (root : Elem) : Str :=
  match truthyText root [.desc ("cbc:ID")] with
  | some s => pyStrip s
  | none => []

/-- NTE segment (lines 1280–1283). -/
def nteSegs (root : Elem) : List Str :=
  match truthyText root [.desc ("cbc:Note")] with
  | some s =>
    if pyStrip s ≠ (".").data ∧ pyStrip s ≠ [] then
      [("NTE*GEN*").data ++ pyStrip s ++ ("~").data]
    else []
  | none => []

/-- CUR segment (lines 1286–1289). -/
def curSegs (root : Elem) : List Str :=
  match truthyText root [.desc ("cbc:DocumentCurrencyCode")] with
  | some s => [("CUR*BY*").data ++ pyStrip s ++ ("~").data]
  | none => []

/-- REF segment (lines 1292–1295). -/
def refSegs (root : Elem) : List Str :=
  match truthyText root [.desc ("cac:ContractDocumentReference"), .child ("cbc:ID")] with
  | some s => [("REF*CT*").data ++ pyStrip s ++ ("~").data]
  | none => []

/-- PER segment (lines 1298–1304). -/
def perSegs (root : Elem) : List Str :=
  match Elem.find root [.desc ("cac:AccountingSupplierParty"), .desc ("cac:Contact")] with
  | some contact =>
    match truthyText contact [.child ("cbc:Name")], truthyText contact [.child ("cbc:Telephone")] with
    | some nm, some ph =>
      [("PER*IC*").data ++ pyStrip nm ++ ("*TE*").data ++ pyStrip ph ++ ("~").data]
    | _, _ => []
  | none => []

/-- Supplier N1 segment (line 1307). -/
def n1Supplier (supplier : PartyInfo) : Str :=
  ("N1*SU*").data ++ supplier.name ++ ("*").data ++ supplier.qualifier ++ ("*").data ++
    pyStrip supplier.id ++ ("~").data

/-- Customer N1 segment (line 1320). -/
def n1Customer (customer : PartyInfo) : Str :=
  ("N1*BY*").data ++ customer.name ++ ("*").data ++ customer.qualifier ++ ("*").data ++
    pyStrip customer.id ++ ("~").data

/-- N3 street segment (lines 1312–1313 / 1325–1326). -/
def n3Segs (a : PostalAddress) : List Str :=
  if a.street ≠ [] then [("N3*").data ++ a.street ++ ("~").data] else []

/-- N4 city/state/postal/country segment (lines 1314–1316 / 1327–1329);
`map_address` yields the `(state, postal, country)` triple. -/
def n4Segs (a : PostalAddress) : List Str :=
  if a.city ≠ [] ∨ (map_address a).2.1 ≠ [] ∨ (map_address a).2.2 ≠ [] then
    [("N4*").data ++ a.city ++ ("*").data ++ (map_address a).1 ++ ("*").data ++
      (map_address a).2.1 ++ ("*").data ++ (map_address a).2.2 ++ ("~").data]
  else []

/-- ITD payment-terms segment (lines 1333–1339). -/
def itdSegs (root : Elem) : List Str :=
  match truthyText root [.desc ("cac:PaymentTerms"), .child ("cbc:Note")] with
  | some s =>
    let term := pyStrip s
    let term := if pyStartswith (("pay immediately").data) (pyLower term) then ("1").data else term
    [("ITD*01*").data ++ term ++ ("~").data]
  | none => []

/-- DTM due-date segment (lines 1342–1346); `none` is the `ValueError`
of `datetime.strptime` on an unparsable `cbc:DueDate`. -/
def dtmSegsOpt (root : Elem) : Option (List Str) :=
  match truthyText root [.desc ("cbc:DueDate")] with
  | some s => (parseYMD (pyStrip s)).map (fun d => [("DTM*011*").data ++ formatYMD8 d ++ ("~").data])
  | none => some []

/-- FOB segment (lines 1349–1352). -/
def fobSegs (root : Elem) : List Str :=
  match Elem.find root [.desc ("cac:Delivery")] with
  | some _ => [("FOB*CC~").data]
  | none => []

def invoiceLines (root : Elem) : List Elem := Elem.findall root [.desc ("cac:InvoiceLine")]

/-- One IT1 line segment (lines 1358–1367). -/
def it1Seg (idx : Nat) (line : Elem) : Str :=
  let quantity_val : Str :=
    match truthyText line [.child ("cbc:InvoicedQuantity")] with
    | some s => pyStrip s
    | none => ("0").data
  let price_val : Str :=
    match truthyText line [.desc ("cac:Price"), .child ("cbc:PriceAmount")] with
    | some s => format_number s
    | none => ("0").data
  let product_code : Str :=
    match truthyText line
        [.desc ("cac:Item"), .child ("cac:SellersItemIdentification"), .child ("cbc:ID")] with
    | some s => pyStrip s
    | none => []
  ("IT1*").data ++ natToChars idx ++ ("*").data ++ quantity_val ++ ("*EA*").data ++
    price_val ++ ("*CP*VP*").data ++ product_code ++ ("~").data

def it1SegsAux : Nat → List Elem → List Str
  | _, [] => []
  | i, l :: ls => it1Seg i l :: it1SegsAux (i + 1) ls

/-- All IT1 segments, numbered from 1 (`enumerate(invoice_lines, 1)`). -/
def it1Segs (lines : List Elem) : List Str := it1SegsAux 1 lines

/-- TDS total segment (lines 1372–1376). -/
def tdsSegs (root : Elem) : List Str :=
  match truthyText root [.desc ("cac:LegalMonetaryTotal"), .child ("cbc:PayableAmount")] with
  | some s => [("TDS*").data ++ format_number s ++ ("~").data]
  | none => []

/-- `int(line.find("cbc:ID", ns).text.lstrip("0") or "0")` for one line
(line 1379).  A missing `cbc:ID` child or `None` text raises
(`AttributeError`), and a non-numeric id raises (`ValueError`): all
three abort the whole conversion. -/
def lineIdValue (line : Elem) : Option Int := do
  let e ← Elem.find line [.child ("cbc:ID")]
  let s ← e.text
  pyInt (match pyLstripZeros s with | [] => ("0").data | r => r)

/-- The CTT hash total: `sum(...)` over the invoice lines (line 1379). -/
def hashTotal : List Elem → Option Int
  | [] => some 0
  | l :: ls => do
    let v ← lineIdValue l
    let r ← hashTotal ls
    pure (v + r)

/-- CTT segment (line 1380). -/
def cttSeg (lines : List Elem) (hash : Int) : Str :=
  ("CTT*").data ++ natToChars lines.length ++ ("*").data ++ intToChars hash ++ ("~").data

/-- GS segment (lines 1236–1240). -/
def gsSeg (supplier customer : PartyInfo) (cn : X12ControlNumbers) (now : PyDateTime) : Str :=
  ("GS*IN*").data ++ pyStrip supplier.id ++ ("*").data ++ pyStrip customer.id ++ ("*").data ++
    fmtYMD now ++ ("*").data ++ fmtHM now ++ ("*").data ++ cn.group_control ++
    ("*X*004010~").data

/-- ST segment (line 1245). -/
def stSeg (cn : X12ControlNumbers) : Str :=
  ("ST*810*").data ++ cn.transaction_control ++ ("~").data

/-- The segment list from ISA through CTT, in the exact order the source
appends to `x12_segments` (lines 1227–1381). -/
def buildPre (root : Elem) (now : PyDateTime) (cn : X12ControlNumbers)
    (formatted_date : Str) (dtm : List Str) (hash : Int) : List Str :=
  let supplier := fixSupplier (extract_party_info root supplierPartyPath)
  let customer := fixCustomer (extract_party_info root customerPartyPath)
  let saddr := extract_postal_address root supplierPartyPath
  let caddr := extract_postal_address root customerPartyPath
  let big := ("BIG*").data ++ formatted_date ++ ("*").data ++ invoiceNumber root ++ ("~").data
  [create_ISA_segment supplier customer cn now, gsSeg supplier customer cn now, stSeg cn, big] ++
    nteSegs root ++ curSegs root ++ refSegs root ++ perSegs root ++
    [n1Supplier supplier] ++ n3Segs saddr ++ n4Segs saddr ++
    [n1Customer customer] ++ n3Segs caddr ++ n4Segs caddr ++
    itdSegs root ++ dtm ++ fobSegs root ++ it1Segs (invoiceLines root) ++
    tdsSegs root ++ [cttSeg (invoiceLines root) hash]

/-- SE trailer (line 1386). -/
def seSeg (cn : X12ControlNumbers) (count : Nat) : Str :=
  ("SE*").data ++ natToChars count ++ ("*").data ++ cn.transaction_control ++ ("~").data

/-- GE trailer (line 1390). -/
def geSeg (cn : X12ControlNumbers) : Str := ("GE*1*").data ++ cn.group_control ++ ("~").data

/-- IEA trailer (line 1394). -/
def ieaSeg (cn : X12ControlNumbers) : Str :=
  ("IEA*1*").data ++ cn.interchange_control ++ ("~").data

/-- The full segment list of `_convert_xml_to_x12_content`:
`buildPre` plus the SE/GE/IEA trailers, where the SE count is
`len(x12_segments) - st_index + 1` computed before appending SE
(lines 1384–1395).  `none` models any exception in the source body. -/
def x12Segments (root : Elem) (now : PyDateTime) : Option (List Str) :=
  match X12ControlNumbers.derive root with
  | none => none
  | some cn =>
    match formattedDateOpt root with
    | none => none
    | some formatted_date =>
      match dtmSegsOpt root with
      | none => none
      | some dtm =>
        match hashTotal (invoiceLines root) with
        | none => none
        | some hash =>
          match (buildPre root now cn formatted_date dtm hash).findIdx?
              (fun s => pyStartswith (("ST").data) s) with
          | none => none
          | some stIdx =>
            some (buildPre root now cn formatted_date dtm hash ++
              [seSeg cn ((buildPre root now cn formatted_date dtm hash).length - stIdx + 1),
                geSeg cn, ieaSeg cn])

/-- `_convert_xml_to_x12_content` on a parsed document:
`"\n".join(x12_segments)`, or `None` on any exception (lines 1397–1408). -/
def convert_xml_to_x12_content (root : Elem) (now : PyDateTime) : Option Str :=
  (x12Segments root now).map (pyJoin (("\x0a").data))

/-! ## XML validation (`validate_xml`, lines 519–779) -/

/-- `_perform_strict_content_validation` (lines 679–779). -/
def perform_strict_content_validation (root : Elem) : List Str :=
  let idWarnings : List Str :=
    match truthyText root [.desc ("cbc:ID")] with
    | some s =>
      let v := pyStrip s
      if v.length < 1 then [("⚠️ Invoice ID is empty").data]
      else if 100 < v.length then [("⚠️ Invoice ID is too long (>100 characters)").data]
      else []
    | none => []
  let dateWarnings : List Str :=
    match truthyText root [.desc ("cbc:IssueDate")] with
    | some s =>
      let v := pyStrip s
      if v.length < 1 then [("⚠️ Issue Date is empty").data]
      else
        match parseYMD v with
        | some _ => []
        | none => [("⚠️ Issue Date format may be invalid (expected YYYY-MM-DD)").data]
    | none => []
  let amountWarnings : List Str :=
    match truthyText root [.desc ("cac:LegalMonetaryTotal"), .child ("cbc:PayableAmount")] with
    | some s =>
      let v := pyStrip s
      if v.length < 1 then [("⚠️ Payable Amount is empty").data]
      else
        match pyFloat v with
        | some _ => []
        | none => [("⚠️ Payable Amount format may be invalid (expected decimal number)").data]
    | none => []
  let supplierNameWarnings : List Str :=
    match truthyText root [.desc ("cac:AccountingSupplierParty"), .desc ("cbc:Name")] with
    | some s =>
      let v := pyStrip s
      if v.length < 1 then [("⚠️ Supplier Name is empty").data]
      else if 255 < v.length then [("⚠️ Supplier Name is too long (>255 characters)").data]
      else []
    | none => []
  let customerNameWarnings : List Str :=
    match truthyText root [.desc ("cac:AccountingCustomerParty"), .desc ("cbc:Name")] with
    | some s =>
      let v := pyStrip s
      if v.length < 1 then [("⚠️ Customer Name is empty").data]
      else if 255 < v.length then [("⚠️ Customer Name is too long (>255 characters)").data]
      else []
    | none => []
  idWarnings ++ dateWarnings ++ amountWarnings ++ supplierNameWarnings ++ customerNameWarnings ++
    lineWarningsAux 1 (invoiceLines root)
where
  lineWarningsAux : Nat → List Elem → List Str
    | _, [] => []
    | i, line :: rest =>
      (let idW : List Str :=
        match truthyText line [.child ("cbc:ID")] with
        | some s =>
          if (pyStrip s).length < 1 then
            [("⚠️ Invoice Line ").data ++ natToChars i ++ (" ID is empty").data]
          else []
        | none => []
      let qtyW : List Str :=
        match truthyText line [.child ("cbc:InvoicedQuantity")] with
        | some s =>
          match pyFloat (pyStrip s) with
          | some _ => []
          | none =>
            [("⚠️ Invoice Line ").data ++ natToChars i ++ (" quantity format may be invalid").data]
        | none => []
      let priceW : List Str :=
        match truthyText line [.desc ("cac:Price"), .child ("cbc:PriceAmount")] with
        | some s =>
          match pyFloat (pyStrip s) with
          | some _ => []
          | none =>
            [("⚠️ Invoice Line ").data ++ natToChars i ++ (" price format may be invalid").data]
        | none => []
      idW ++ qtyW ++ priceW) ++ lineWarningsAux (i + 1) rest

/-- `_perform_enhanced_xml_validation` (lines 620–677): presence
warnings for the six UBL lookups, then the content warnings. -/
def perform_enhanced_xml_validation (root : Elem) : List Str :=
  let presence : List Str :=
    (match Elem.find root [.desc ("cbc:ID")] with
     | some _ => []
     | none => [("⚠️ No UBL Invoice ID (cbc:ID) found - may affect conversion").data]) ++
    (match Elem.find root [.desc ("cbc:IssueDate")] with
     | some _ => []
     | none => [("⚠️ No UBL Issue Date (cbc:IssueDate) found - may affect conversion").data]) ++
    (match Elem.find root [.desc ("cac:LegalMonetaryTotal"), .child ("cbc:PayableAmount")] with
     | some _ => []
     | none => [("⚠️ No UBL Payable Amount found - may affect conversion").data]) ++
    (match Elem.find root [.desc ("cac:AccountingSupplierParty")] with
     | some _ => []
     | none => [("⚠️ No UBL Supplier Party found - may affect conversion").data]) ++
    (match Elem.find root [.desc ("cac:AccountingCustomerParty")] with
     | some _ => []
     | none => [("⚠️ No UBL Customer Party found - may affect conversion").data]) ++
    (if (invoiceLines root).isEmpty then
       [("⚠️ No UBL Invoice Lines found - may affect conversion").data]
     else [])
  presence ++ perform_strict_content_validation root

/-- The validated document as `validate_xml` sees it after storage reads:
empty file, ill-formed XML (with the parser message), or a parsed tree. -/
inductive XmlInput where
  | empty
  | malformed (msg : Str)
  | wellFormed (root : Elem)

structure XmlValidationResult where
  ok : Bool
  message : Str
  warnings : List Str
deriving DecidableEq, Repr

/-- `validate_xml` (lines 519–618), with storage I/O abstracted to the
`XmlInput` the function observes.  An empty file or an `ET.ParseError`
fails regardless of `strict_validation`; a parsed document fails only
when strict mode is on and warnings exist, with the aggregate message. -/
def validate_xml (inp : XmlInput) (strict_validation : Bool) : XmlValidationResult :=
  match inp with
  | .empty => ⟨false, ("XML file is empty").data, []⟩
  | .malformed m => ⟨false, ("XML parsing error: ").data ++ m, []⟩
  | .wellFormed root =>
    let validation_warnings := perform_enhanced_xml_validation root
    if strict_validation ∧ validation_warnings ≠ [] then
      ⟨false,
        ("Strict validation failed: ").data ++ pyJoin (("; ").data) validation_warnings,
        validation_warnings⟩
    else ⟨true, ("XML validation passed - file is well-formed").data, validation_warnings⟩

/-! ## EDI format validation (`validate_edi_format`, lines 781–1052) -/

structure SegCheck where
  valid : Bool
  errors : List Str
deriving DecidableEq, Repr

/-- The `validation_results` dictionary: one entry per checked segment
group, in the source's insertion order. -/
structure EdiChecks where
  isa_segment : SegCheck
  gs_segment : SegCheck
  st_segment : SegCheck
  big_segment : SegCheck
  n1_segments : SegCheck
  it1_segment : SegCheck
  tds_segment : SegCheck
  trailer_segments : SegCheck
deriving DecidableEq, Repr

structure EdiValidationResult where
  ok : Bool
  message : Str
  details : Option EdiChecks
deriving DecidableEq, Repr

/-- ISA header checks (lines 809–843). -/
def isaCheck (segments : List Str) : SegCheck :=
  match segments.find? (fun s => pyStartswith (("ISA").data) s) with
  | some isa_segment =>
    let f := pySplit '*' isa_segment
    if 16 ≤ f.length then
      let errs :=
        (if (f.getD 1 []).length ≠ 2 then
          [("ISA02: Authorization Info Qualifier must be 2 characters").data] else []) ++
        (if (f.getD 2 []).length ≠ 10 then
          [("ISA03: Authorization Info must be 10 characters").data] else []) ++
        (if (f.getD 3 []).length ≠ 2 then
          [("ISA04: Security Info Qualifier must be 2 characters").data] else []) ++
        (if (f.getD 4 []).length ≠ 10 then
          [("ISA05: Security Info must be 10 characters").data] else []) ++
        (if (f.getD 5 []).length ≠ 2 then
          [("ISA06: Interchange ID Qualifier must be 2 characters").data] else []) ++
        (if (f.getD 6 []).length ≠ 15 then
          [("ISA07: Sender ID must be 15 characters").data] else []) ++
        (if (f.getD 7 []).length ≠ 2 then
          [("ISA08: Interchange ID Qualifier must be 2 characters").data] else []) ++
        (if (f.getD 8 []).length ≠ 15 then
          [("ISA09: Receiver ID must be 15 characters").data] else [])
      ⟨errs.isEmpty, errs⟩
    else ⟨false, [("ISA segment must have at least 16 fields").data]⟩
  | none => ⟨false, [("ISA segment not found").data]⟩

/-- GS header checks (lines 845–869). -/
def gsCheck (segments : List Str) : SegCheck :=
  match segments.find? (fun s => pyStartswith (("GS").data) s) with
  | some gs_segment =>
    let f := pySplit '*' gs_segment
    if 8 ≤ f.length then
      let errs :=
        (if f.getD 1 [] ≠ ("IN").data then
          [("GS02: Functional Identifier must be 'IN' for Invoice").data] else []) ++
        (if (f.getD 2 []).length ≠ 2 then
          [("GS03: Application Sender Code must be 2 characters").data] else []) ++
        (if (f.getD 3 []).length ≠ 2 then
          [("GS04: Application Receiver Code must be 2 characters").data] else [])
      ⟨errs.isEmpty, errs⟩
    else ⟨false, [("GS segment must have at least 8 fields").data]⟩
  | none => ⟨false, [("GS segment not found").data]⟩

/-- ST header checks (lines 871–890). -/
def stCheck (segments : List Str) : SegCheck :=
  match segments.find? (fun s => pyStartswith (("ST").data) s) with
  | some st_segment =>
    let f := pySplit '*' st_segment
    if 2 ≤ f.length then
      let errs :=
        if f.getD 1 [] ≠ ("810").data then
          [("ST02: Transaction Set Identifier must be '810' for Invoice").data]
        else []
      ⟨errs.isEmpty, errs⟩
    else ⟨false, [("ST segment must have at least 2 fields").data]⟩
  | none => ⟨false, [("ST segment not found").data]⟩

/-- The BIG date-field checks (lines 898–910): nonempty, 8 characters,
three `int(...)` slices, month in 1..12 and day in 1..31 — note the day
is *not* checked against the month's length. -/
def bigDateErrors (date : Str) : List Str :=
  if date ≠ [] ∧ date.length = 8 then
    match pyInt (date.take 4), pyInt ((date.drop 4).take 2), pyInt ((date.drop 6).take 2) with
    | some _, some m, some d =>
      if ¬(1 ≤ m ∧ m ≤ 12 ∧ 1 ≤ d ∧ d ≤ 31) then [("BIG02: Invalid date format").data]
      else []
    | _, _, _ => [("BIG02: Date must be numeric YYYYMMDD format").data]
  else [("BIG02: Invoice date must be 8 characters (YYYYMMDD)").data]

/-- BIG segment checks (lines 892–926). -/
def bigCheck (segments : List Str) : SegCheck :=
  match segments.find? (fun s => pyStartswith (("BIG").data) s) with
  | some big_segment =>
    let f := pySplit '*' big_segment
    if 3 ≤ f.length then
      let errs :=
        bigDateErrors (f.getD 1 []) ++
        (if f.getD 2 [] = [] then [("BIG03: Invoice number cannot be empty").data] else [])
      ⟨errs.isEmpty, errs⟩
    else ⟨false, [("BIG segment must have at least 3 fields").data]⟩
  | none => ⟨false, [("BIG segment not found").data]⟩

/-- Per-N1-segment checks; `i` is the 0-based `enumerate` index
(lines 932–939). -/
def n1SegErrors (i : Nat) (seg : Str) : List Str :=
  let f := pySplit '*' seg
  if 2 ≤ f.length then
    if f.getD 1 [] ≠ ("BY").data ∧ f.getD 1 [] ≠ ("SE").data then
      [("N1-").data ++ natToChars (i + 1) ++ (": Entity Identifier must be 'BY' or 'SE'").data]
    else []
  else [("N1-").data ++ natToChars (i + 1) ++ (": Segment must have at least 2 fields").data]

def n1ErrorsAux : Nat → List Str → List Str
  | _, [] => []
  | i, seg :: rest => n1SegErrors i seg ++ n1ErrorsAux (i + 1) rest

/-- N1 segment checks (lines 928–948). -/
def n1Check (segments : List Str) : SegCheck :=
  let n1_segments := segments.filter (fun s => pyStartswith (("N1").data) s)
  if 2 ≤ n1_segments.length then
    let errs := n1ErrorsAux 0 n1_segments
    ⟨errs.isEmpty, errs⟩
  else ⟨false, [("Must have at least 2 N1 segments (Buyer and Seller)").data]⟩

/-- IT1 segment checks (lines 950–974). -/
def it1Check (segments : List Str) : SegCheck :=
  match segments.find? (fun s => pyStartswith (("IT1").data) s) with
  | some it1_segment =>
    let f := pySplit '*' it1_segment
    if 6 ≤ f.length then
      let errs :=
        if f.getD 2 [] = [] then [("IT103: Quantity must be greater than 0").data]
        else
          match pyFloat (f.getD 2 []) with
          | none => [("IT103: Quantity must be numeric").data]
          | some q =>
            if q.le0 then [("IT103: Quantity must be greater than 0").data] else []
      ⟨errs.isEmpty, errs⟩
    else ⟨false, [("IT1 segment must have at least 6 fields").data]⟩
  | none => ⟨false, [("IT1 segment not found").data]⟩

/-- TDS segment checks (lines 976–999). -/
def tdsCheck (segments : List Str) : SegCheck :=
  match segments.find? (fun s => pyStartswith (("TDS").data) s) with
  | some tds_segment =>
    let f := pySplit '*' tds_segment
    if 2 ≤ f.length then
      let errs :=
        if f.getD 1 [] = [] then [("TDS02: Total amount must be greater than 0").data]
        else
          match pyFloat (f.getD 1 []) with
          | none => [("TDS02: Total amount must be numeric").data]
          | some a =>
            if a.le0 then [("TDS02: Total amount must be greater than 0").data] else []
      ⟨errs.isEmpty, errs⟩
    else ⟨false, [("TDS segment must have at least 2 fields").data]⟩
  | none => ⟨false, [("TDS segment not found").data]⟩

/-- Trailer presence checks for CTT, SE, GE, IEA (lines 1001–1018). -/
def trailerCheck (segments : List Str) : SegCheck :=
  let errs :=
    (match segments.find? (fun s => pyStartswith (("CTT").data) s) with
     | some _ => []
     | none => [("CTT segment not found").data]) ++
    (match segments.find? (fun s => pyStartswith (("SE").data) s) with
     | some _ => []
     | none => [("SE segment not found").data]) ++
    (match segments.find? (fun s => pyStartswith (("GE").data) s) with
     | some _ => []
     | none => [("GE segment not found").data]) ++
    (match segments.find? (fun s => pyStartswith (("IEA").data) s) with
     | some _ => []
     | none => [("IEA segment not found").data])
  ⟨errs.isEmpty, errs⟩

def EdiChecks.allValid (r : EdiChecks) : Bool :=
  r.isa_segment.valid && r.gs_segment.valid && r.st_segment.valid && r.big_segment.valid &&
    r.n1_segments.valid && r.it1_segment.valid && r.tds_segment.valid &&
    r.trailer_segments.valid

def EdiChecks.totalErrors (r : EdiChecks) : Nat :=
  r.isa_segment.errors.length + r.gs_segment.errors.length + r.st_segment.errors.length +
    r.big_segment.errors.length + r.n1_segments.errors.length + r.it1_segment.errors.length +
    r.tds_segment.errors.length + r.trailer_segments.errors.length

/-- `validate_edi_format` (lines 781–1052) on the EDI text it reads:
split on `~`, strip, drop empties, check each segment group, and return
the conjunction with per-group details on failure. -/
def validate_edi_format (edi_content : Str) : EdiValidationResult :=
  let segments := ((pySplit '~' edi_content).map pyStrip).filter (fun s => !s.isEmpty)
  let results : EdiChecks :=
    ⟨isaCheck segments, gsCheck segments, stCheck segments, bigCheck segments,
      n1Check segments, it1Check segments, tdsCheck segments, trailerCheck segments⟩
  if results.allValid then ⟨true, ("EDI format validation passed").data, none⟩
  else
    ⟨false,
      ("EDI format validation failed with ").data ++ natToChars results.totalErrors ++
        (" errors").data,
      some results⟩

/-! ## The pipeline orchestrator (`_process_invoice_internal`, lines 1432–2128)

The control skeleton of the five-step pipeline, with storage, database,
timing and logging abstracted away.  Documents and EDI texts are
abstract types; the stage validators and the correction advisor
(`auto_correct_xml_with_ai` / `auto_fix_edi_with_ai`) are parameters.
An advisor returning `none` covers all of: "no correction produced",
"output unchanged", and an advisor exception (the source catches those
and proceeds as if uncorrected).  The returned trace records each
advisor invocation and each re-validation, in order. -/

inductive PipeEvent where
  | xmlAdvise
  | xmlRevalidate
  | convAdvise
  | ediAdvise
  | ediRevalidate
deriving DecidableEq, Repr

inductive PipeOutcome where
  | uploadRejected
  | xmlFailed
  | convFailed
  | ediFormatFailed
  | succeeded
deriving DecidableEq, Repr

structure PipelineEnv (Doc Edi : Type) where
  contentTypeOk : Bool
  filenameOk : Bool
  xmlValidate : Doc → Bool
  xmlAdvise : Doc → Option Doc
  convert : Doc → Option Edi
  convAdvise : Doc → Option Edi
  ediValidate : Edi → Bool
  ediAdvise : Doc × Edi → Option Edi

/-- The pipeline: upload guards (1500–1519), XML validation with its
one-shot correction edge (1567–1731), conversion with an advisor call
that cannot rescue the failure response (1770–1937), and EDI format
validation with its one-shot correction edge (1956–2117). -/
def pipeline {Doc Edi : Type} (env : PipelineEnv Doc Edi) (d0 : Doc) :
    PipeOutcome × List PipeEvent :=
  if env.contentTypeOk then
    if env.filenameOk then
      if env.xmlValidate d0 then afterXml env d0 []
      else
        match env.xmlAdvise d0 with
        | some d1 =>
          if env.xmlValidate d1 then afterXml env d1 [.xmlAdvise, .xmlRevalidate]
          else (.xmlFailed, [.xmlAdvise, .xmlRevalidate])
        | none => (.xmlFailed, [.xmlAdvise])
    else (.uploadRejected, [])
  else (.uploadRejected, [])
where
  afterXml (env : PipelineEnv Doc Edi) (d : Doc) (tr : List PipeEvent) :
      PipeOutcome × List PipeEvent :=
    match env.convert d with
    | none =>
      -- the conversion-failure branch consults the advisor but then
      -- returns the failure response unconditionally (lines 1808–1937)
      (.convFailed, tr ++ [.convAdvise])
    | some e =>
      if env.ediValidate e then (.succeeded, tr)
      else
        match env.ediAdvise (d, e) with
        | some e1 =>
          if env.ediValidate e1 then (.succeeded, tr ++ [.ediAdvise, .ediRevalidate])
          else (.ediFormatFailed, tr ++ [.ediAdvise, .ediRevalidate])
        | none => (.ediFormatFailed, tr ++ [.ediAdvise])

/-! ## Concrete documents used by counterexamples and witnesses -/

/-- A supplier party with name, endpoint id and a postal address. -/
def suppParty : Elem :=
  el ("cac:Party") none
    [el ("cbc:Name") (some (("Supp Co").data)) [],
     elA ("cbc:EndpointID") [(("schemeID"), ("0088"))] (some (("SUPP1").data)) [],
     el ("cac:PostalAddress") none
       [el ("cbc:StreetName") (some (("1 Main St").data)) [],
        el ("cbc:CityName") (some (("North Sydney").data)) [],
        el ("cbc:PostalZone") (some (("2060").data)) [],
        el ("cac:Country") none [el ("cbc:IdentificationCode") (some (("AU").data)) []]]]

/-- A customer party with name and endpoint id. -/
def custParty : Elem :=
  el ("cac:Party") none
    [el ("cbc:Name") (some (("Cust Co").data)) [],
     elA ("cbc:EndpointID") [(("schemeID"), ("0088"))] (some (("CUST1").data)) []]

/-- A complete well-formed UBL invoice: id, issue date, payable amount,
supplier and customer parties, and one invoice line. -/
def docFull : Elem :=
  el ("Invoice") none
    [el ("cbc:ID") (some (("INV1").data)) [],
     el ("cbc:IssueDate") (some (("2024-03-15").data)) [],
     el ("cac:AccountingSupplierParty") none [suppParty],
     el ("cac:AccountingCustomerParty") none [custParty],
     el ("cac:LegalMonetaryTotal") none [el ("cbc:PayableAmount") (some (("100.00").data)) []],
     el ("cac:InvoiceLine") none
       [el ("cbc:ID") (some (("1").data)) [],
        el ("cbc:InvoicedQuantity") (some (("2").data)) [],
        el ("cac:Price") none [el ("cbc:PriceAmount") (some (("50.00").data)) []]]]

/-- The encode-time timestamp used by the concrete runs. -/
def tsRun : PyDateTime := ⟨2024, 3, 15, 10, 30⟩

/-- A document whose `cbc:ID` is a normal leaf element with text
`INV12345` (the invoice-id shape every real UBL invoice has). -/
def docLeafId : Elem := el ("Invoice") none [el ("cbc:ID") (some (("INV12345").data)) []]

/-- A document with one invoice line whose id is the non-numeric `ABC`. -/
def docBadLineId : Elem :=
  el ("Invoice") none [el ("cac:InvoiceLine") none [el ("cbc:ID") (some (("ABC").data)) []]]

/-- A document with no invoice lines at all. -/
def docNoLines : Elem := el ("Invoice") none []

/-- A document whose optional `cbc:DueDate` is present but unparsable. -/
def docBadDueDate : Elem :=
  el ("Invoice") none [el ("cbc:DueDate") (some (("2024-13-01").data)) []]

/-- A supplier party whose endpoint id contains the `*` delimiter. -/
def docStarParty : Elem :=
  el ("Invoice") none
    [el ("cac:AccountingSupplierParty") none
      [el ("cac:Party") none
        [elA ("cbc:EndpointID") [(("schemeID"), ("0088"))] (some (("A*B").data)) []]]]

/-- A hand-written EDI document that satisfies every `validate_edi_format`
check while its BIG date is February 30th. -/
def c8Text : Str :=
  ("ISA*00*          *00*          *ZZ*AAAAAAAAAAAAAAA*ZZ*BBBBBBBBBBBBBBB*240101*1200*U*00401*000000001*0*P*>~GS*IN*AA*BB*20240101*1200*1*X*004010~ST*810*0001~BIG*20240230*INV1~N1*BY*Buyer~N1*SE*Seller~IT1*1*2*EA*500*CP*VP*X~TDS*10000~CTT*1*1~SE*8*0001~GE*1*1~IEA*1*1~").data

/-- All-zero control numbers (what the deriver produces on every
ordinary leaf-element document). -/
def cnZeros : X12ControlNumbers := ⟨("000000000").data, ("000000").data, ("0000").data⟩

/-- A delimiter-clean supplier `PartyInfo` with a normalized 15-char id. -/
def partyClean : PartyInfo := ⟨("Supp Co").data, pyLjust 15 (("SUPP1").data), ("12").data⟩

/-- A delimiter-clean customer `PartyInfo` with a normalized 15-char id. -/
def partyClean2 : PartyInfo := ⟨("Cust Co").data, pyLjust 15 (("CUST1").data), ("12").data⟩

/-- A concrete pipeline environment (used to instantiate the
orchestrator theorem): both validators fail and the advisor yields no
correction. -/
def envNoFix : PipelineEnv Nat Nat :=
  { contentTypeOk := true
    filenameOk := true
    xmlValidate := fun _ => false
    xmlAdvise := fun _ => none
    convert := fun _ => none
    convAdvise := fun _ => none
    ediValidate := fun _ => false
    ediAdvise := fun _ => none }

/-- The property of ending with the segment terminator `~`. -/
def endsTilde (s : Str) : Prop := ∃ y, s = y ++ (("~").data)

/-- The two facts needed about every segment the converter emits before
SE: it ends with `~` and does not look like an SE segment. -/
def segOk (x : Str) : Prop := endsTilde x ∧ pyStartswith (("SE").data) x = false

/-! # Theorems -/

/-! ## String lemmas -/

theorem pySplit_ne_nil (c : Char) (l : Str) : pySplit c l ≠ [] := by
  induction l with
  | nil => simp [pySplit]
  | cons a rest ih =>
    unfold pySplit
    split
    · simp
    · cases h : pySplit c rest with
      | nil => simp
      | cons s ss => simp

theorem pySplit_append_cons (c : Char) (xs ys : Str) :
    pySplit c (xs ++ c :: ys) = pySplit c xs ++ pySplit c ys := by
  induction xs with
  | nil => simp [pySplit]
  | cons a rest ih =>
    by_cases ha : a = c
    · subst ha
      simp [pySplit, ih]
    · cases h : pySplit c rest with
      | nil => exact absurd h (pySplit_ne_nil c rest)
      | cons s ss =>
        simp only [List.cons_append]
        simp [pySplit, ha, ih, h]

theorem pySplit_of_not_mem (c : Char) (l : Str) (h : c ∉ l) : pySplit c l = [l] := by
  induction l with
  | nil => rfl
  | cons a rest ih =>
    have ha : ¬(a = c) := fun e => h (e ▸ List.mem_cons_self a rest)
    have hr : c ∉ rest := fun e => h (List.mem_cons_of_mem a e)
    simp [pySplit, ha, ih hr]

theorem pySplit_head_append (c : Char) (xs ys : Str) (h : c ∉ xs) :
    ∃ hd tl, pySplit c ys = hd :: tl ∧ pySplit c (xs ++ ys) = (xs ++ hd) :: tl := by
  induction xs with
  | nil =>
    cases hy : pySplit c ys with
    | nil => exact absurd hy (pySplit_ne_nil c ys)
    | cons hd tl => exact ⟨hd, tl, rfl, by simpa using hy⟩
  | cons a rest ih =>
    have ha : ¬(a = c) := fun e => h (e ▸ List.mem_cons_self a rest)
    obtain ⟨hd, tl, h1, h2⟩ := ih (fun e => h (List.mem_cons_of_mem a e))
    refine ⟨hd, tl, h1, ?_⟩
    simp only [List.cons_append]
    simp [pySplit, ha, h2]

theorem mem_pySplit_of_split (c : Char) (l : Str) (x : List Str) (y : List Str)
    (h : pySplit c l = x ++ y) (hy : y ≠ []) : y.headI ∈ pySplit c l := by
  rw [h]
  cases y with
  | nil => exact absurd rfl hy
  | cons b bs => exact List.mem_append_right x (List.mem_cons_self b bs)

theorem dropWhile_all_false {p : Char → Bool} {l : Str} (h : ∀ c ∈ l, p c = false) :
    l.dropWhile p = l := by
  induction l with
  | nil => rfl
  | cons a rest ih =>
    simp [List.dropWhile, h a (List.mem_cons_self a rest),
      ih (fun x hx => h x (List.mem_cons_of_mem _ hx))]

theorem dropWhile_append_of_ne_nil {p : Char → Bool} {a b : Str} (h : a.dropWhile p ≠ []) :
    (a ++ b).dropWhile p = a.dropWhile p ++ b := by
  induction a with
  | nil => exact absurd rfl h
  | cons x xs ih =>
    by_cases hx : p x
    · rw [List.cons_append, List.dropWhile_cons_of_pos hx, List.dropWhile_cons_of_pos hx]
      exact ih (by rwa [List.dropWhile_cons_of_pos hx] at h)
    · rw [List.cons_append, List.dropWhile_cons_of_neg hx, List.dropWhile_cons_of_neg hx]
      rfl

theorem dropWhile_append_of_nil {p : Char → Bool} {a b : Str} (h : a.dropWhile p = []) :
    (a ++ b).dropWhile p = b.dropWhile p := by
  induction a with
  | nil => rfl
  | cons x xs ih =>
    by_cases hx : p x
    · rw [List.cons_append, List.dropWhile_cons_of_pos hx]
      exact ih (by rwa [List.dropWhile_cons_of_pos hx] at h)
    · rw [List.dropWhile_cons_of_neg hx] at h
      exact absurd h (by simp)

theorem pyStripRight_block (A u : Str) (hA : A ≠ [])
    (hlast : isPySpace (A.getLast hA) = false) :
    pyStripRight (A ++ u) = A ++ pyStripRight u := by
  unfold pyStripRight
  rw [List.reverse_append]
  have hrev : A.reverse.dropWhile isPySpace = A.reverse := by
    cases hr : A.reverse with
    | nil => simp
    | cons x xs =>
      have hx : x = A.getLast hA := by
        have h1 : A.reverse.head? = A.getLast? := List.head?_reverse A
        rw [hr, List.head?_cons, List.getLast?_eq_getLast A hA] at h1
        exact Option.some.inj h1
      rw [List.dropWhile_cons_of_neg (by rw [hx, hlast]; simp)]
  by_cases hu : u.reverse.dropWhile isPySpace = []
  · rw [dropWhile_append_of_nil hu, hu, hrev]
    simp
  · rw [dropWhile_append_of_ne_nil hu]
    simp

theorem pyStrip_nl_block (u : Str) :
    ∃ v, pyStrip (('\x0a') :: ((("N1*SU*").data) ++ u)) = (("N1*SU*").data) ++ v := by
  refine ⟨pyStripRight u, ?_⟩
  unfold pyStrip
  have hshape : ('\x0a') :: ((("N1*SU*").data) ++ u) = (('\x0a') :: (("N1*SU*").data)) ++ u := by
    simp
  rw [hshape, pyStripRight_block _ u (by decide) (by decide)]
  unfold pyStripLeft
  have hA2 : (("N1*SU*").data).dropWhile isPySpace = (("N1*SU*").data) := by decide
  rw [List.cons_append, List.dropWhile_cons_of_pos (by decide),
    dropWhile_append_of_ne_nil (by rw [hA2]; decide), hA2]

/-! ## C2 — `validate_xml` outcome structure -/

/-- C2: for every well-formed document, `validate_xml` with
`strict=false` returns `ok = true` together with the semantic warnings;
with `strict=true` it returns `ok = false` and a message aggregating all
warnings whenever at least one warning exists (and `ok = true` when none
do); an empty or ill-formed input is the only condition that fails
regardless of the strict flag. -/
theorem claim_C2 (inp : XmlInput) (strict : Bool) :
    (∀ root, inp = .wellFormed root →
      (validate_xml inp false).ok = true ∧
      (validate_xml inp false).warnings = perform_enhanced_xml_validation root ∧
      (perform_enhanced_xml_validation root ≠ [] →
        (validate_xml inp true).ok = false ∧
        (validate_xml inp true).message =
          ("Strict validation failed: ").data ++
            pyJoin (("; ").data) (perform_enhanced_xml_validation root) ∧
        (validate_xml inp true).warnings = perform_enhanced_xml_validation root) ∧
      (perform_enhanced_xml_validation root = [] → (validate_xml inp true).ok = true)) ∧
    ((inp = .empty ∨ ∃ m, inp = .malformed m) → (validate_xml inp strict).ok = false) := by
  constructor
  · rintro root rfl
    refine ⟨?_, ?_, ?_, ?_⟩
    · simp [validate_xml]
    · simp [validate_xml]
    · intro hw
      simp [validate_xml, hw]
    · intro hw
      simp [validate_xml, hw]
  · rintro (rfl | ⟨m, rfl⟩) <;> rfl

/-- Witness for C2 at concrete inputs: a well-formed document with
warnings passes non-strict validation, fails strict validation, and an
empty input fails. -/
theorem claim_C2_witness :
    (validate_xml (.wellFormed docNoLines) false).ok = true ∧
    (validate_xml (.wellFormed docNoLines) true).ok = false ∧
    (validate_xml .empty true).ok = false := by
  refine ⟨((claim_C2 (.wellFormed docNoLines) true).1 docNoLines rfl).1,
    (((claim_C2 (.wellFormed docNoLines) true).1 docNoLines rfl).2.2.1 (by decide)).1,
    (claim_C2 .empty true).2 (Or.inl rfl)⟩

/-! ## C3 — control-number derivation -/

/-- C3 (refuting evaluation): on a document whose `cbc:ID` is present as
an ordinary leaf element with text `INV12345`, the derived interchange
control number is the all-zero string, not the zero-padded first nine
characters of the invoice id — `if invoice_id:` tests ElementTree
truthiness (children), not presence, so the claimed derivation rule
never fires on leaf ids. -/
theorem claim_C3_bug :
    (Elem.find docLeafId [.desc ("cbc:ID")]).isSome = true ∧
    ((Elem.find docLeafId [.desc ("cbc:ID")]).map Elem.text) = some (some (("INV12345").data)) ∧
    X12ControlNumbers.derive docLeafId = some cnZeros ∧
    cnZeros.interchange_control ≠ pyZfill 9 (((("INV12345").data)).take 9) := by
  decide

/-! ## C9 — at most one correction attempt per stage -/

/-- The events appended after the XML stage: no XML-stage events, at
most one EDI-advisor call with at most one re-validation, exactly one
advisor call when the format stage fails terminally, and the XML-failure
outcome is impossible past the XML stage. -/
theorem afterXml_trace {Doc Edi : Type} (env : PipelineEnv Doc Edi) (d : Doc)
    (tr0 : List PipeEvent) (out : PipeOutcome) (tr : List PipeEvent)
    (h : pipeline.afterXml env d tr0 = (out, tr)) :
    ∃ extra : List PipeEvent,
      tr = tr0 ++ extra ∧
      extra.count PipeEvent.xmlAdvise = 0 ∧
      extra.count PipeEvent.xmlRevalidate = 0 ∧
      extra.count PipeEvent.ediAdvise ≤ 1 ∧
      extra.count PipeEvent.ediRevalidate ≤ extra.count PipeEvent.ediAdvise ∧
      (out = PipeOutcome.ediFormatFailed → extra.count PipeEvent.ediAdvise = 1) ∧
      out ≠ PipeOutcome.xmlFailed := by
  unfold pipeline.afterXml at h
  cases hc : env.convert d with
  | none =>
    simp only [hc] at h
    obtain ⟨rfl, rfl⟩ := Prod.mk.inj h
    exact ⟨[.convAdvise], rfl, by decide, by decide, by decide, by decide, by decide, by decide⟩
  | some e =>
    simp only [hc] at h
    cases hv : env.ediValidate e with
    | true =>
      simp only [hv, if_true] at h
      obtain ⟨rfl, rfl⟩ := Prod.mk.inj h
      exact ⟨[], by simp, by decide, by decide, by decide, by decide, by decide, by decide⟩
    | false =>
      simp only [hv, Bool.false_eq_true, if_false] at h
      cases ha : env.ediAdvise (d, e) with
      | none =>
        simp only [ha] at h
        obtain ⟨rfl, rfl⟩ := Prod.mk.inj h
        exact ⟨[.ediAdvise], rfl, by decide, by decide, by decide, by decide, by decide, by decide⟩
      | some e1 =>
        simp only [ha] at h
        cases hv2 : env.ediValidate e1 with
        | true =>
          simp only [hv2, if_true] at h
          obtain ⟨rfl, rfl⟩ := Prod.mk.inj h
          exact ⟨[.ediAdvise, .ediRevalidate], rfl, by decide, by decide, by decide, by decide,
            by decide, by decide⟩
        | false =>
          simp only [hv2, Bool.false_eq_true, if_false] at h
          obtain ⟨rfl, rfl⟩ := Prod.mk.inj h
          exact ⟨[.ediAdvise, .ediRevalidate], rfl, by decide, by decide, by decide, by decide,
            by decide, by decide⟩

/-- C9: each failing stage triggers at most one correction-advisor
invocation followed by at most one re-validation by the same validator;
when a stage still fails after its single attempt the pipeline finalizes
that stage's failure (the terminal outcome is reached with exactly one
advisor call for the failing stage and none for later stages). -/
theorem claim_C9 {Doc Edi : Type} (env : PipelineEnv Doc Edi) (d0 : Doc)
    (out : PipeOutcome) (tr : List PipeEvent) (h : pipeline env d0 = (out, tr)) :
    tr.count .xmlAdvise ≤ 1 ∧ tr.count .xmlRevalidate ≤ tr.count .xmlAdvise ∧
    tr.count .ediAdvise ≤ 1 ∧ tr.count .ediRevalidate ≤ tr.count .ediAdvise ∧
    (out = .xmlFailed → tr.count .xmlAdvise = 1 ∧ tr.count .ediAdvise = 0) ∧
    (out = .ediFormatFailed → tr.count .ediAdvise = 1) := by
  unfold pipeline at h
  cases hct : env.contentTypeOk with
  | false =>
    simp only [hct, Bool.false_eq_true, if_false] at h
    obtain ⟨rfl, rfl⟩ := Prod.mk.inj h
    decide
  | true =>
    simp only [hct, if_true] at h
    cases hfn : env.filenameOk with
    | false =>
      simp only [hfn, Bool.false_eq_true, if_false] at h
      obtain ⟨rfl, rfl⟩ := Prod.mk.inj h
      decide
    | true =>
      simp only [hfn, if_true] at h
      cases hxv : env.xmlValidate d0 with
      | true =>
        simp only [hxv, if_true] at h
        obtain ⟨extra, htr, h1, h2, h3, h4, h5, h6⟩ := afterXml_trace env d0 [] out _ h
        have htr2 : tr = extra := by simpa using htr
        subst htr2
        exact ⟨by omega, by omega, h3, h4, fun hout => absurd hout h6, h5⟩
      | false =>
        simp only [hxv, Bool.false_eq_true, if_false] at h
        cases hadv : env.xmlAdvise d0 with
        | none =>
          simp only [hadv] at h
          obtain ⟨rfl, rfl⟩ := Prod.mk.inj h
          decide
        | some d1 =>
          simp only [hadv] at h
          cases hxv2 : env.xmlValidate d1 with
          | true =>
            simp only [hxv2, if_true] at h
            obtain ⟨extra, rfl, h1, h2, h3, h4, h5, h6⟩ :=
              afterXml_trace env d1 [.xmlAdvise, .xmlRevalidate] out _ h
            have c1 : List.count PipeEvent.xmlAdvise [PipeEvent.xmlAdvise, PipeEvent.xmlRevalidate] = 1 := by decide
            have c2 : List.count PipeEvent.xmlRevalidate [PipeEvent.xmlAdvise, PipeEvent.xmlRevalidate] = 1 := by decide
            have c3 : List.count PipeEvent.ediAdvise [PipeEvent.xmlAdvise, PipeEvent.xmlRevalidate] = 0 := by decide
            have c4 : List.count PipeEvent.ediRevalidate [PipeEvent.xmlAdvise, PipeEvent.xmlRevalidate] = 0 := by decide
            simp only [List.count_append, c1, c2, c3, c4]
            refine ⟨by omega, by omega, by omega, by omega,
              fun hout => absurd hout h6, fun hout => by have := h5 hout; omega⟩
          | false =>
            simp only [hxv2, Bool.false_eq_true, if_false] at h
            obtain ⟨rfl, rfl⟩ := Prod.mk.inj h
            decide

/-- Witness for C9 at a concrete environment and document. -/
theorem claim_C9_witness :
    ((pipeline envNoFix 0).2.count .xmlAdvise ≤ 1) ∧
    ((pipeline envNoFix 0).2.count .ediAdvise ≤ 1) ∧
    (pipeline envNoFix 0).1 = .xmlFailed := by
  have h := claim_C9 envNoFix 0 (pipeline envNoFix 0).1 (pipeline envNoFix 0).2 rfl
  exact ⟨h.1, h.2.2.1, by decide⟩

/-! ## C7 — PartyInfo id normalization -/

/-- C7: `_extract_party_info` always returns an id of exactly 15
characters (space-padded or truncated), including when the party or its
endpoint id is missing, and the encoder's SENDERID/RECEIVERID default
substitution preserves that length. -/
theorem claim_C7 :
    (∀ root path, (extract_party_info root path).id.length = 15) ∧
    (∀ pi : PartyInfo, pi.id.length = 15 →
      (fixSupplier pi).id.length = 15 ∧ (fixCustomer pi).id.length = 15) := by
  constructor
  · intro root path
    unfold extract_party_info
    cases Elem.find root path with
    | none => decide
    | some party =>
      simp only
      rw [List.length_take, pyLjust, List.length_append, List.length_replicate]
      omega
  · intro pi hpi
    unfold fixSupplier fixCustomer
    constructor
    · split
      · show (pyLjust 15 (("SENDERID").data)).length = 15
        decide
      · exact hpi
    · split
      · show (pyLjust 15 (("RECEIVERID").data)).length = 15
        decide
      · exact hpi

/-- Witness for C7 at concrete inputs. -/
theorem claim_C7_witness :
    (extract_party_info docFull supplierPartyPath).id.length = 15 ∧
    (fixSupplier partyClean).id.length = 15 := by
  exact ⟨claim_C7.1 docFull supplierPartyPath, (claim_C7.2 partyClean (by decide)).1⟩

/-! ## C10 — unparsable optional DueDate aborts the whole conversion -/

/-- C10: when `cbc:DueDate` is present with nonempty text that does not
parse as `YYYY-MM-DD`, the conversion returns `None` (the exception is
caught by the function-wide handler), so the submission is reported as a
failed EDI-conversion step even though the field is optional. -/
theorem claim_C10 (root : Elem) (now : PyDateTime) (e : Elem) (s : Str)
    (hfind : Elem.find root [.desc ("cbc:DueDate")] = some e)
    (htext : e.text = some s) (hne : s ≠ [])
    (hbad : parseYMD (pyStrip s) = none) :
    convert_xml_to_x12_content root now = none := by
  have hdtm : dtmSegsOpt root = none := by
    unfold dtmSegsOpt truthyText
    simp [hfind, htext, hne, hbad]
  unfold convert_xml_to_x12_content x12Segments
  cases hcn : X12ControlNumbers.derive root with
  | none => simp [hcn]
  | some cn =>
    cases hfd : formattedDateOpt root with
    | none => simp [hcn, hfd]
    | some fd => simp [hcn, hfd, hdtm]

/-- The due-date element of `docBadDueDate`. -/
theorem claim_C10_witness :
    convert_xml_to_x12_content docBadDueDate tsRun = none ∧
    (Elem.find docBadDueDate [.desc ("cbc:DueDate")]).isSome = true := by
  constructor
  · exact claim_C10 docBadDueDate tsRun
      (el ("cbc:DueDate") (some (("2024-13-01").data)) []) (("2024-13-01").data)
      (by rfl) (by rfl) (by decide) (by decide)
  · decide

/-! ## C1 — encode-then-validate never returns ok on encoder output -/

set_option maxRecDepth 4000 in
/-- C1 (counterexample): a well-formed UBL invoice with id, issue date,
payable amount, supplier and customer parties, and one invoice line, on
which the conversion succeeds but `validate_edi_format` returns
`ok = false` (the generated supplier `N1*SU` segment and the long GS
sender/receiver codes are rejected). -/
theorem claim_C1_counterexample :
    (Elem.find docFull [.desc ("cbc:ID")]).isSome = true ∧
    (Elem.find docFull [.desc ("cbc:IssueDate")]).isSome = true ∧
    (Elem.find docFull [.desc ("cac:LegalMonetaryTotal"), .child ("cbc:PayableAmount")]).isSome = true ∧
    (Elem.find docFull [.desc ("cac:AccountingSupplierParty")]).isSome = true ∧
    (Elem.find docFull [.desc ("cac:AccountingCustomerParty")]).isSome = true ∧
    (invoiceLines docFull).length = 1 ∧
    (convert_xml_to_x12_content docFull tsRun).map (fun t => (validate_edi_format t).ok) =
      some false := by
  decide

/-! ## C4 — CTT hash total -/

/-- C4 (counterexample): an invoice whose single line has the
non-numeric id `ABC`.  The claim says unparsable line ids contribute 0
to the CTT hash total (so the output would contain `CTT*1*0~`); instead
`int("ABC")` raises and the whole conversion returns `None`. -/
theorem claim_C4_counterexample :
    (invoiceLines docBadLineId).length = 1 ∧
    (Elem.find docBadLineId [.desc ("cac:InvoiceLine"), .child ("cbc:ID")]).isSome = true ∧
    convert_xml_to_x12_content docBadLineId tsRun = none := by
  decide

/-! ## C8 — BIG date validation -/

/-- C8 (counterexample): a full EDI document whose BIG date field is
`20240230` — eight digits but not a real calendar date (February has at
most 29 days) — passes `validate_edi_format` with `ok = true`, so the
BIG segment is *not* reported invalid. -/
theorem claim_C8_counterexample :
    (validate_edi_format c8Text).ok = true ∧
    ((("BIG*20240230*INV1").data) ∈ (pySplit '~' c8Text).map pyStrip) ∧
    allDigits (("20240230").data) = true ∧
    (("20240230").data).length = 8 ∧
    daysInMonth 2024 2 < 30 := by
  decide

/-! ## Digit and number lemmas -/

theorem digitChar_isDigit : ∀ n : Nat, isDigitC (digitChar n) = true
  | 0 => by decide
  | 1 => by decide
  | 2 => by decide
  | 3 => by decide
  | 4 => by decide
  | 5 => by decide
  | 6 => by decide
  | 7 => by decide
  | 8 => by decide
  | n + 9 => by
    cases n with
    | zero => decide
    | succ m => rfl

theorem mem_natToCharsAux_digit :
    ∀ (fuel n : Nat) (c : Char), c ∈ natToCharsAux fuel n → isDigitC c = true := by
  intro fuel
  induction fuel with
  | zero => intro n c h; simp [natToCharsAux] at h
  | succ f ih =>
    intro n c h
    unfold natToCharsAux at h
    split at h
    · rw [List.mem_singleton] at h
      rw [h]
      exact digitChar_isDigit n
    · rcases List.mem_append.1 h with h1 | h1
      · exact ih _ c h1
      · rw [List.mem_singleton] at h1
        rw [h1]
        exact digitChar_isDigit (n % 10)

theorem mem_natToChars_digit (n : Nat) (c : Char) (h : c ∈ natToChars n) : isDigitC c = true :=
  mem_natToCharsAux_digit (n + 1) n c h

theorem ne_of_digit_nondigit (c d : Char) (h : isDigitC c = true) (hd : isDigitC d = false) :
    c ≠ d := by
  intro e
  rw [e, hd] at h
  cases h

theorem mem_pyZfill (w : Nat) (s : Str) (c : Char) (h : c ∈ pyZfill w s) :
    c = '0' ∨ c ∈ s := by
  unfold pyZfill at h
  split at h
  · exact Or.inr h
  · split at h
    · exact Or.inl (List.eq_of_mem_replicate h)
    · split at h
      · rcases List.mem_cons.1 h with rfl | h
        · exact Or.inr (List.mem_cons_self _ _)
        · rcases List.mem_append.1 h with h1 | h1
          · exact Or.inl (List.eq_of_mem_replicate h1)
          · exact Or.inr (List.mem_cons_of_mem _ h1)
      · rcases List.mem_append.1 h with h1 | h1
        · exact Or.inl (List.eq_of_mem_replicate h1)
        · exact Or.inr h1

theorem mem_pyLjust (w : Nat) (s : Str) (c : Char) (h : c ∈ pyLjust w s) :
    c ∈ s ∨ c = ' ' := by
  unfold pyLjust at h
  rcases List.mem_append.1 h with h1 | h1
  · exact Or.inl h1
  · exact Or.inr (List.eq_of_mem_replicate h1)

theorem not_space_of_digit (c : Char) (h : isDigitC c = true) : isPySpace c = false := by
  cases hsp : isPySpace c with
  | false => rfl
  | true =>
    exfalso
    simp only [isPySpace, decide_eq_true_eq] at hsp
    rcases hsp with rfl | rfl | rfl | rfl | rfl | rfl <;> exact absurd h (by decide)

theorem pyStrip_of_digits (s : Str) (h : allDigits s = true) : pyStrip s = s := by
  have hall : ∀ c ∈ s, isPySpace c = false := by
    intro c hc
    exact not_space_of_digit c (by
      have := List.all_eq_true.1 h c hc
      simpa using this)
  unfold pyStrip pyStripLeft pyStripRight
  rw [dropWhile_all_false (fun c hc => hall c (List.mem_reverse.1 hc))]
  rw [List.reverse_reverse, dropWhile_all_false hall]

theorem pyInt_digits (s : Str) (hne : s ≠ []) (h : allDigits s = true) :
    pyInt s = some ((digitsToNat s : Nat) : Int) := by
  unfold pyInt
  rw [pyStrip_of_digits s h]
  cases s with
  | nil => exact absurd rfl hne
  | cons c rest =>
    have hc : isDigitC c = true := by
      have := List.all_eq_true.1 h c (List.mem_cons_self c rest)
      simpa using this
    simp [ne_of_digit_nondigit c ('-') hc (by decide),
      ne_of_digit_nondigit c ('+') hc (by decide), h]

/-! ## Join and terminator lemmas -/

theorem pyJoin_cons_ex (sep : Str) (s : Str) (post : List Str) :
    ∃ tail, pyJoin sep (s :: post) = s ++ tail := by
  cases post with
  | nil => exact ⟨[], by simp [pyJoin]⟩
  | cons y rest => exact ⟨sep ++ pyJoin sep (y :: rest), by simp [pyJoin]⟩

theorem pyJoin_append_cons (sep : Str) (pre : List Str) (s : Str) (post : List Str)
    (h : pre ≠ []) :
    ∃ tail, pyJoin sep (pre ++ s :: post) = pyJoin sep pre ++ sep ++ s ++ tail := by
  induction pre with
  | nil => exact absurd rfl h
  | cons x rest ih =>
    cases rest with
    | nil =>
      obtain ⟨tail, ht⟩ := pyJoin_cons_ex sep s post
      refine ⟨tail, ?_⟩
      have e1 : pyJoin sep (x :: s :: post) = x ++ sep ++ pyJoin sep (s :: post) := rfl
      show pyJoin sep (x :: s :: post) = pyJoin sep [x] ++ sep ++ s ++ tail
      rw [e1, ht]
      show x ++ sep ++ (s ++ tail) = x ++ sep ++ s ++ tail
      simp [List.append_assoc]
    | cons y rest2 =>
      obtain ⟨tail, ht⟩ := ih (by simp)
      refine ⟨tail, ?_⟩
      have e1 : pyJoin sep ((x :: y :: rest2) ++ s :: post) =
          x ++ sep ++ pyJoin sep ((y :: rest2) ++ s :: post) := rfl
      have e3 : pyJoin sep (x :: y :: rest2) = x ++ sep ++ pyJoin sep (y :: rest2) := rfl
      rw [e1, ht, e3]
      simp [List.append_assoc]

theorem endsTilde_append (a b : Str) (hb : endsTilde b) : endsTilde (a ++ b) := by
  obtain ⟨y, rfl⟩ := hb
  exact ⟨a ++ y, by simp⟩

theorem pyJoin_endsTilde (sep : Str) (pre : List Str) (h : pre ≠ [])
    (hall : ∀ x ∈ pre, endsTilde x) : endsTilde (pyJoin sep pre) := by
  induction pre with
  | nil => exact absurd rfl h
  | cons x rest ih =>
    cases rest with
    | nil => simpa [pyJoin] using hall x (List.mem_cons_self x [])
    | cons y rest2 =>
      have e : pyJoin sep (x :: y :: rest2) = (x ++ sep) ++ pyJoin sep (y :: rest2) := rfl
      rw [e]
      exact endsTilde_append _ _ (ih (by simp) (fun z hz => hall z (List.mem_cons_of_mem x hz)))

theorem pySplit_join_star (xs : List Str) (h : xs ≠ []) (hstar : ∀ x ∈ xs, ('*') ∉ x) :
    pySplit ('*') (pyJoin (("*").data) xs ++ (("~").data)) =
      xs.dropLast ++ [xs.getLast h ++ (("~").data)] := by
  induction xs with
  | nil => exact absurd rfl h
  | cons x rest ih =>
    cases rest with
    | nil =>
      have e : pyJoin (("*").data) [x] = x := rfl
      rw [e]
      have hx : ('*') ∉ x ++ (("~").data) := by
        intro hm
        rcases List.mem_append.1 hm with h1 | h1
        · exact hstar x (List.mem_cons_self x []) h1
        · exact absurd h1 (by decide)
      rw [pySplit_of_not_mem _ _ hx]
      rfl
    | cons y rest2 =>
      have e : pyJoin (("*").data) (x :: y :: rest2) =
          x ++ (("*").data) ++ pyJoin (("*").data) (y :: rest2) := rfl
      have e2 : (x ++ (("*").data) ++ pyJoin (("*").data) (y :: rest2)) ++ (("~").data) =
          x ++ ('*') :: (pyJoin (("*").data) (y :: rest2) ++ (("~").data)) := by
        simp [List.append_assoc]
      rw [e, e2, pySplit_append_cons,
        pySplit_of_not_mem _ x (hstar x (List.mem_cons_self x (y :: rest2))),
        ih (by simp) (fun z hz => hstar z (List.mem_cons_of_mem x hz))]
      have e3 : (x :: y :: rest2).dropLast = x :: (y :: rest2).dropLast := List.dropLast_cons₂ ..
      rw [e3]
      have e4 : (x :: y :: rest2).getLast (by simp) = (y :: rest2).getLast (by simp) :=
        List.getLast_cons (by simp)
      rw [e4]
      rfl

theorem not_star_of_digits (s : Str) (hd : ∀ c ∈ s, isDigitC c = true) : ('*') ∉ s :=
  fun hm => absurd (hd _ hm) (by decide)

theorem pad2_digits (n : Nat) : ∀ c ∈ pad2 n, isDigitC c = true := by
  intro c hc
  rcases mem_pyZfill _ _ _ hc with rfl | hc2
  · decide
  · exact mem_natToChars_digit n c hc2

theorem not_star_ljust_take (w n : Nat) (s : Str) (hs : ('*') ∉ s) :
    ('*') ∉ pyLjust w (s.take n) := by
  intro hm
  rcases mem_pyLjust _ _ _ hm with h1 | h1
  · exact hs (List.mem_of_mem_take h1)
  · exact absurd h1 (by decide)

theorem not_star_fmtYYMMDD (t : PyDateTime) : ('*') ∉ fmtYYMMDD t := by
  intro hm
  unfold fmtYYMMDD at hm
  rcases List.mem_append.1 hm with h1 | h1
  · rcases List.mem_append.1 h1 with h2 | h2 <;>
      exact absurd (pad2_digits _ _ h2) (by decide)
  · exact absurd (pad2_digits _ _ h1) (by decide)

theorem not_star_fmtHM (t : PyDateTime) : ('*') ∉ fmtHM t := by
  intro hm
  unfold fmtHM at hm
  rcases List.mem_append.1 hm with h1 | h1 <;>
    exact absurd (pad2_digits _ _ h1) (by decide)

/-! ## C6 — ISA segment shape -/

/-- C6 (amended): provided none of the party qualifiers/ids nor the
interchange control number contains the `*` delimiter, the assembled ISA
segment splits on `*` into exactly 17 elements, the last being the
single character `>` immediately followed by the `~` terminator, and no
padding is applied after assembly.  (The unamended universal claim is
false: a party id containing `*` — reachable from an endpoint id in the
XML — changes the element count, see the counterexample.) -/
theorem claim_C6_amended (supplier customer : PartyInfo) (cn : X12ControlNumbers)
    (now : PyDateTime)
    (h1 : ('*') ∉ supplier.qualifier) (h2 : ('*') ∉ supplier.id)
    (h3 : ('*') ∉ customer.qualifier) (h4 : ('*') ∉ customer.id)
    (h5 : ('*') ∉ cn.interchange_control) :
    (pySplit ('*') (create_ISA_segment supplier customer cn now)).length = 17 ∧
    (pySplit ('*') (create_ISA_segment supplier customer cn now)).getLast? =
      some ((">~").data) := by
  have hmem : ∀ x ∈ [(("ISA").data), (("00").data), List.replicate 10 ' ', (("00").data),
      List.replicate 10 ' ', pyLjust 2 (supplier.qualifier.take 2),
      pyLjust 15 (supplier.id.take 15), pyLjust 2 (customer.qualifier.take 2),
      pyLjust 15 (customer.id.take 15), fmtYYMMDD now, fmtHM now, (("U").data),
      (("00401").data), pyZfill 9 cn.interchange_control, (("0").data), (("P").data),
      ((">").data)], ('*') ∉ x := by
    intro x hx
    simp only [List.mem_cons, List.not_mem_nil, or_false] at hx
    rcases hx with rfl | rfl | rfl | rfl | rfl | rfl | rfl | rfl | rfl | rfl | rfl | rfl |
      rfl | rfl | rfl | rfl | rfl
    · decide
    · decide
    · decide
    · decide
    · decide
    · exact not_star_ljust_take 2 2 _ h1
    · exact not_star_ljust_take 15 15 _ h2
    · exact not_star_ljust_take 2 2 _ h3
    · exact not_star_ljust_take 15 15 _ h4
    · exact not_star_fmtYYMMDD now
    · exact not_star_fmtHM now
    · decide
    · decide
    · intro hm
      rcases mem_pyZfill _ _ _ hm with he | he
      · exact absurd he (by decide)
      · exact h5 he
    · decide
    · decide
    · decide
  have key : pySplit ('*') (create_ISA_segment supplier customer cn now) =
      ([(("ISA").data), (("00").data), List.replicate 10 ' ', (("00").data),
        List.replicate 10 ' ', pyLjust 2 (supplier.qualifier.take 2),
        pyLjust 15 (supplier.id.take 15), pyLjust 2 (customer.qualifier.take 2),
        pyLjust 15 (customer.id.take 15), fmtYYMMDD now, fmtHM now, (("U").data),
        (("00401").data), pyZfill 9 cn.interchange_control, (("0").data), (("P").data),
        ((">").data)] : List Str).dropLast ++ [((">~").data)] := by
    unfold create_ISA_segment
    rw [pySplit_join_star _ (by simp) hmem]
    rfl
  rw [key]
  constructor
  · simp
  · rw [List.getLast?_concat]

/-- C6 (counterexample): with a supplier id that contains the `*`
delimiter — produced by `_extract_party_info` from an endpoint id
`A*B` — the ISA segment splits into 18 elements, not 17. -/
theorem claim_C6_counterexample :
    (extract_party_info docStarParty supplierPartyPath).id = (("A*B            ").data) ∧
    (pySplit ('*') (create_ISA_segment (extract_party_info docStarParty supplierPartyPath)
      partyClean2 cnZeros tsRun)).length = 18 := by
  decide

/-- Witness for C6 (amended) at concrete delimiter-clean inputs. -/
theorem claim_C6_witness :
    (pySplit ('*') (create_ISA_segment partyClean partyClean2 cnZeros tsRun)).length = 17 ∧
    (pySplit ('*') (create_ISA_segment partyClean partyClean2 cnZeros tsRun)).getLast? =
      some ((">~").data) :=
  claim_C6_amended partyClean partyClean2 cnZeros tsRun (by decide) (by decide) (by decide)
    (by decide) (by decide)

/-- C8 (amended): for an 8-digit BIG date field, `validate_edi_format`'s
date check accepts exactly when the month slice is in 1..12 and the day
slice is in 1..31 — the day is never checked against the length of the
month, so non-existent dates like February 30th are accepted. -/
theorem claim_C8_amended (d : Str) (hlen : d.length = 8) (hdig : allDigits d = true) :
    (bigDateErrors d = [] ↔
      (1 ≤ digitsToNat ((d.drop 4).take 2) ∧ digitsToNat ((d.drop 4).take 2) ≤ 12 ∧
        1 ≤ digitsToNat ((d.drop 6).take 2) ∧ digitsToNat ((d.drop 6).take 2) ≤ 31)) := by
  have hallmem : ∀ c ∈ d, isDigitC c = true := fun c hc => by
    have := List.all_eq_true.1 hdig c hc
    simpa using this
  have hsub : ∀ s : Str, (∀ c ∈ s, c ∈ d) → allDigits s = true := fun s hs =>
    List.all_eq_true.2 (fun c hc => by simpa using hallmem c (hs c hc))
  have h4 : allDigits (d.take 4) = true := hsub _ (fun c hc => List.mem_of_mem_take hc)
  have hm2 : allDigits ((d.drop 4).take 2) = true :=
    hsub _ (fun c hc => List.mem_of_mem_drop (List.mem_of_mem_take hc))
  have hd2 : allDigits ((d.drop 6).take 2) = true :=
    hsub _ (fun c hc => List.mem_of_mem_drop (List.mem_of_mem_take hc))
  have hne4 : d.take 4 ≠ [] := by
    have hl : (d.take 4).length = 4 := by
      rw [List.length_take, hlen]
      decide
    intro e
    rw [e] at hl
    cases hl
  have hnem : (d.drop 4).take 2 ≠ [] := by
    have hl : ((d.drop 4).take 2).length = 2 := by
      rw [List.length_take, List.length_drop, hlen]
      decide
    intro e
    rw [e] at hl
    cases hl
  have hned : (d.drop 6).take 2 ≠ [] := by
    have hl : ((d.drop 6).take 2).length = 2 := by
      rw [List.length_take, List.length_drop, hlen]
      decide
    intro e
    rw [e] at hl
    cases hl
  have hne : d ≠ [] := by
    intro e
    rw [e] at hlen
    cases hlen
  simp only [bigDateErrors, hne, hlen, pyInt_digits _ hne4 h4, pyInt_digits _ hnem hm2,
    pyInt_digits _ hned hd2, ne_eq, not_false_iff, and_self, if_true, true_and,
    if_pos, and_true]
  split
  · rename_i hcond
    simp only [List.cons_ne_nil, false_iff]
    omega
  · rename_i hcond
    simp only [true_iff]
    omega

/-- Witness for C8 (amended): the impossible date `20240230` is accepted. -/
theorem claim_C8_witness : bigDateErrors (("20240230").data) = [] :=
  (claim_C8_amended (("20240230").data) (by decide) (by decide)).2 (by decide)

/-! ## Converter structure lemmas -/

/-- Destructuring a successful conversion into its fallible steps and
the final segment-list shape. -/
theorem x12Segments_some (root : Elem) (now : PyDateTime) (segs : List Str)
    (h : x12Segments root now = some segs) :
    ∃ cn fd dtm hash stIdx,
      X12ControlNumbers.derive root = some cn ∧
      formattedDateOpt root = some fd ∧
      dtmSegsOpt root = some dtm ∧
      hashTotal (invoiceLines root) = some hash ∧
      (buildPre root now cn fd dtm hash).findIdx? (fun s => pyStartswith (("ST").data) s) =
        some stIdx ∧
      segs = buildPre root now cn fd dtm hash ++
        [seSeg cn ((buildPre root now cn fd dtm hash).length - stIdx + 1), geSeg cn,
          ieaSeg cn] := by
  unfold x12Segments at h
  cases hcn : X12ControlNumbers.derive root with
  | none => simp only [hcn] at h; cases h
  | some cn =>
    simp only [hcn] at h
    cases hfd : formattedDateOpt root with
    | none => simp only [hfd] at h; cases h
    | some fd =>
      simp only [hfd] at h
      cases hdtm : dtmSegsOpt root with
      | none => simp only [hdtm] at h; cases h
      | some dtm =>
        simp only [hdtm] at h
        cases hhash : hashTotal (invoiceLines root) with
        | none => simp only [hhash] at h; cases h
        | some hash =>
          simp only [hhash] at h
          generalize hidx : (buildPre root now cn fd dtm hash).findIdx?
              (fun s => pyStartswith (("ST").data) s) = idxOpt at h
          cases idxOpt with
          | none => cases h
          | some stIdx =>
            exact ⟨cn, fd, dtm, hash, stIdx, rfl, rfl, rfl, rfl, hidx,
              (Option.some.inj h).symm⟩

/-! ## C4 — CTT hash total (amended) -/

/-- C4 (amended): whenever the conversion succeeds, the segment list
contains the CTT segment `CTT*<line count>*<hash>~` where the hash is
the successful sum of the per-line `int(id.lstrip("0") or "0")` values;
a missing or non-numeric line id instead aborts the whole conversion
(see the counterexample), and an invoice with zero lines yields exactly
`CTT*0*0~`. -/
theorem claim_C4_amended (root : Elem) (now : PyDateTime) (segs : List Str)
    (h : x12Segments root now = some segs) :
    ∃ hash, hashTotal (invoiceLines root) = some hash ∧
      cttSeg (invoiceLines root) hash ∈ segs ∧
      (invoiceLines root = [] → (("CTT*0*0~").data) ∈ segs) := by
  obtain ⟨cn, fd, dtm, hash, stIdx, hcn, hfd, hdtm, hhash, hidx, hsegs⟩ :=
    x12Segments_some root now segs h
  refine ⟨hash, hhash, ?_, ?_⟩
  · rw [hsegs]
    refine List.mem_append_left _ ?_
    unfold buildPre
    simp
  · intro hnil
    rw [hnil] at hhash
    have hz : hash = 0 := by
      have := hhash
      unfold hashTotal at this
      exact (Option.some.inj this).symm
    have he : cttSeg (invoiceLines root) hash = (("CTT*0*0~").data) := by
      rw [hnil, hz]
      rfl
    rw [hsegs, ← he]
    refine List.mem_append_left _ ?_
    unfold buildPre
    simp

/-- Witness for C4 (amended) at a concrete zero-line document. -/
theorem claim_C4_witness :
    ∃ segs, x12Segments docNoLines tsRun = some segs ∧ (("CTT*0*0~").data) ∈ segs := by
  refine ⟨_, rfl, ?_⟩
  have hmem := claim_C4_amended docNoLines tsRun _ rfl
  obtain ⟨hash, hh, hmem1, hmem2⟩ := hmem
  exact hmem2 rfl

/-! ## Segment shape lemmas

`segOk s` states the two facts needed about every segment the converter
emits before SE: it ends with `~` and does not look like an SE segment. -/

theorem segOk_append_tilde (a : Str) (h : pyStartswith (("SE").data) (a ++ (("~").data)) = false) :
    segOk (a ++ (("~").data)) := ⟨⟨a, rfl⟩, h⟩

theorem nteSegs_ok (root : Elem) : ∀ x ∈ nteSegs root, segOk x := by
  intro x hx
  unfold nteSegs at hx
  split at hx
  · split at hx
    · rw [List.mem_singleton] at hx
      subst hx
      exact ⟨⟨_, rfl⟩, rfl⟩
    · exact absurd hx (List.not_mem_nil x)
  · exact absurd hx (List.not_mem_nil x)

theorem curSegs_ok (root : Elem) : ∀ x ∈ curSegs root, segOk x := by
  intro x hx
  unfold curSegs at hx
  split at hx
  · rw [List.mem_singleton] at hx
    subst hx
    exact ⟨⟨_, rfl⟩, rfl⟩
  · exact absurd hx (List.not_mem_nil x)

theorem refSegs_ok (root : Elem) : ∀ x ∈ refSegs root, segOk x := by
  intro x hx
  unfold refSegs at hx
  split at hx
  · rw [List.mem_singleton] at hx
    subst hx
    exact ⟨⟨_, rfl⟩, rfl⟩
  · exact absurd hx (List.not_mem_nil x)

theorem perSegs_ok (root : Elem) : ∀ x ∈ perSegs root, segOk x := by
  intro x hx
  unfold perSegs at hx
  split at hx
  · split at hx
    · rw [List.mem_singleton] at hx
      subst hx
      exact ⟨⟨_, rfl⟩, rfl⟩
    · exact absurd hx (List.not_mem_nil x)
  · exact absurd hx (List.not_mem_nil x)

theorem n3Segs_ok (a : PostalAddress) : ∀ x ∈ n3Segs a, segOk x := by
  intro x hx
  unfold n3Segs at hx
  split at hx
  · rw [List.mem_singleton] at hx
    subst hx
    exact ⟨⟨_, rfl⟩, rfl⟩
  · exact absurd hx (List.not_mem_nil x)

theorem n4Segs_ok (a : PostalAddress) : ∀ x ∈ n4Segs a, segOk x := by
  intro x hx
  unfold n4Segs at hx
  split at hx
  · rw [List.mem_singleton] at hx
    subst hx
    exact ⟨⟨_, rfl⟩, rfl⟩
  · exact absurd hx (List.not_mem_nil x)

theorem itdSegs_ok (root : Elem) : ∀ x ∈ itdSegs root, segOk x := by
  intro x hx
  unfold itdSegs at hx
  split at hx
  · rw [List.mem_singleton] at hx
    subst hx
    exact ⟨⟨_, rfl⟩, rfl⟩
  · exact absurd hx (List.not_mem_nil x)

theorem fobSegs_ok (root : Elem) : ∀ x ∈ fobSegs root, segOk x := by
  intro x hx
  unfold fobSegs at hx
  split at hx
  · rw [List.mem_singleton] at hx
    subst hx
    exact ⟨⟨(("FOB*CC").data), by decide⟩, rfl⟩
  · exact absurd hx (List.not_mem_nil x)

theorem tdsSegs_ok (root : Elem) : ∀ x ∈ tdsSegs root, segOk x := by
  intro x hx
  unfold tdsSegs at hx
  split at hx
  · rw [List.mem_singleton] at hx
    subst hx
    exact ⟨⟨_, rfl⟩, rfl⟩
  · exact absurd hx (List.not_mem_nil x)

theorem dtmSegs_ok (root : Elem) (dtm : List Str) (h : dtmSegsOpt root = some dtm) :
    ∀ x ∈ dtm, segOk x := by
  intro x hx
  unfold dtmSegsOpt at h
  split at h
  · rename_i s hs
    cases hp : parseYMD (pyStrip s) with
    | none => rw [hp] at h; cases h
    | some d =>
      rw [hp] at h
      have hd : dtm = [("DTM*011*").data ++ formatYMD8 d ++ ("~").data] :=
        (Option.some.inj h).symm
      rw [hd, List.mem_singleton] at hx
      subst hx
      exact ⟨⟨_, rfl⟩, rfl⟩
  · have hd : dtm = [] := (Option.some.inj h).symm
    rw [hd] at hx
    exact absurd hx (List.not_mem_nil x)

theorem it1SegsAux_ok (i : Nat) (lines : List Elem) : ∀ x ∈ it1SegsAux i lines, segOk x := by
  induction lines generalizing i with
  | nil => intro x hx; exact absurd hx (List.not_mem_nil x)
  | cons l ls ih =>
    intro x hx
    rcases List.mem_cons.1 hx with rfl | hx2
    · exact ⟨⟨_, rfl⟩, rfl⟩
    · exact ih (i + 1) x hx2

theorem nilSegs_ok : ∀ x ∈ ([] : List Str), segOk x :=
  fun x hx => absurd hx (List.not_mem_nil x)

theorem gsSeg_endsTilde (s c : PartyInfo) (cn : X12ControlNumbers) (t : PyDateTime) :
    endsTilde (gsSeg s c cn t) := by
  refine ⟨("GS*IN*").data ++ pyStrip s.id ++ ("*").data ++ pyStrip c.id ++ ("*").data ++
    fmtYMD t ++ ("*").data ++ fmtHM t ++ ("*").data ++ cn.group_control ++
    ("*X*004010").data, ?_⟩
  unfold gsSeg
  have e : ("*X*004010~").data = ("*X*004010").data ++ ("~").data := by decide
  rw [e]
  simp [List.append_assoc]

/-- Every segment of `buildPre` ends with `~` and is not an SE segment. -/
theorem buildPre_ok (root : Elem) (now : PyDateTime) (cn : X12ControlNumbers)
    (fd : Str) (dtm : List Str) (hash : Int) (hdtm : dtmSegsOpt root = some dtm) :
    ∀ x ∈ buildPre root now cn fd dtm hash, segOk x := by
  unfold buildPre
  simp only [List.forall_mem_append, List.forall_mem_cons]
  exact ⟨⟨⟨⟨⟨⟨⟨⟨⟨⟨⟨⟨⟨⟨⟨⟨⟨⟨⟨_, rfl⟩, rfl⟩, ⟨gsSeg_endsTilde _ _ _ _, rfl⟩, ⟨⟨_, rfl⟩, rfl⟩, ⟨⟨_, rfl⟩, rfl⟩, nilSegs_ok⟩,
    nteSegs_ok root⟩,
    curSegs_ok root⟩,
    refSegs_ok root⟩,
    perSegs_ok root⟩,
    ⟨⟨⟨_, rfl⟩, rfl⟩, nilSegs_ok⟩⟩,
    n3Segs_ok _⟩,
    n4Segs_ok _⟩,
    ⟨⟨⟨_, rfl⟩, rfl⟩, nilSegs_ok⟩⟩,
    n3Segs_ok _⟩,
    n4Segs_ok _⟩,
    itdSegs_ok root⟩,
    dtmSegs_ok root dtm hdtm⟩,
    fobSegs_ok root⟩,
    it1SegsAux_ok 1 (invoiceLines root)⟩,
    tdsSegs_ok root⟩,
    ⟨⟨⟨_, rfl⟩, rfl⟩, nilSegs_ok⟩⟩

/-! ## findIdx? lemmas -/

theorem findIdx?_append_left {α : Type} (p : α → Bool) (l₁ l₂ : List α) (i j : Nat)
    (h : l₁.findIdx? p i = some j) : (l₁ ++ l₂).findIdx? p i = some j := by
  induction l₁ generalizing i with
  | nil => rw [List.findIdx?] at h; cases h
  | cons x xs ih =>
    rw [List.findIdx?_cons] at h
    rw [List.cons_append, List.findIdx?_cons]
    by_cases hx : p x
    · rwa [if_pos hx] at h ⊢
    · rw [if_neg hx] at h ⊢
      exact ih (i + 1) h

theorem findIdx?_append_all_false {α : Type} (p : α → Bool) (l₁ l₂ : List α) (i : Nat)
    (h : ∀ x ∈ l₁, p x = false) :
    (l₁ ++ l₂).findIdx? p i = l₂.findIdx? p (i + l₁.length) := by
  induction l₁ generalizing i with
  | nil => simp
  | cons x xs ih =>
    rw [List.cons_append, List.findIdx?_cons,
      if_neg (by rw [h x (List.mem_cons_self x xs)]; simp)]
    rw [ih (i + 1) (fun y hy => h y (List.mem_cons_of_mem x hy))]
    congr 1
    simp only [List.length_cons]
    omega

/-! ## C5 — SE segment count -/

/-- C5: in every EDI document produced by the encoder, the count written
into the SE segment's first data element equals the number of segments
from the ST segment through the SE segment inclusive (the distance
between the two segment indices plus one). -/
theorem claim_C5 (root : Elem) (now : PyDateTime) (segs : List Str)
    (h : x12Segments root now = some segs) :
    ∃ i j seg,
      segs.findIdx? (fun s => pyStartswith (("ST").data) s) = some i ∧
      segs.findIdx? (fun s => pyStartswith (("SE").data) s) = some j ∧
      segs[j]? = some seg ∧
      (pySplit ('*') seg)[1]? = some (natToChars (j - i + 1)) := by
  obtain ⟨cn, fd, dtm, hash, stIdx, hcn, hfd, hdtm, hhash, hidx, hsegs⟩ :=
    x12Segments_some root now segs h
  have hSTpre : (buildPre root now cn fd dtm hash).findIdx?
      (fun s => pyStartswith (("ST").data) s) = some 2 := by
    unfold buildPre
    iterate 16 apply findIdx?_append_left
    rfl
  have hstIdx : stIdx = 2 := by
    rw [hSTpre] at hidx
    exact (Option.some.inj hidx).symm
  have hfalse : ∀ x ∈ buildPre root now cn fd dtm hash,
      (fun s => pyStartswith (("SE").data) s) x = false :=
    fun x hx => (buildPre_ok root now cn fd dtm hash hdtm x hx).2
  refine ⟨2, (buildPre root now cn fd dtm hash).length,
    seSeg cn ((buildPre root now cn fd dtm hash).length - stIdx + 1), ?_, ?_, ?_, ?_⟩
  · rw [hsegs]
    exact findIdx?_append_left _ _ _ 0 2 hSTpre
  · rw [hsegs, findIdx?_append_all_false _ _ _ 0 hfalse]
    rw [List.findIdx?_cons, if_pos (by rfl), Nat.zero_add]
  · rw [hsegs, List.getElem?_append_right (le_refl _)]
    simp
  · have hnc : ('*') ∉ natToChars ((buildPre root now cn fd dtm hash).length - stIdx + 1) :=
      not_star_of_digits _ (fun c hc => mem_natToChars_digit _ _ hc)
    have e1 : seSeg cn ((buildPre root now cn fd dtm hash).length - stIdx + 1) =
        ("SE").data ++ ('*') ::
          (natToChars ((buildPre root now cn fd dtm hash).length - stIdx + 1) ++ ('*') ::
            (cn.transaction_control ++ ("~").data)) := by
      unfold seSeg
      have a : ("SE*").data = ("SE").data ++ [('*')] := by decide
      have b : ("*").data = [('*')] := by decide
      rw [a, b]
      simp [List.append_assoc]
    rw [e1, pySplit_append_cons, pySplit_of_not_mem _ _ (by decide : ('*') ∉ ("SE").data),
      pySplit_append_cons, pySplit_of_not_mem _ _ hnc, hstIdx,
      List.singleton_append, List.singleton_append,
      List.getElem?_cons_succ, List.getElem?_cons_zero]

theorem claim_C5_witness :
    ∃ segs, x12Segments docFull tsRun = some segs ∧
      ∃ i j seg,
        segs.findIdx? (fun s => pyStartswith (("ST").data) s) = some i ∧
        segs.findIdx? (fun s => pyStartswith (("SE").data) s) = some j ∧
        segs[j]? = some seg ∧
        (pySplit ('*') seg)[1]? = some (natToChars (j - i + 1)) :=
  ⟨_, rfl, claim_C5 docFull tsRun _ rfl⟩

/-! ## C1 (amended) — the format validator rejects every encoder output

The encoder always emits the supplier name/address loop as `N1*SU*…`
(line 1307), but `validate_edi_format` only accepts `BY` or `SE` as the
N1 entity identifier (lines 929–948), so a successfully converted
document can never pass EDI format validation. -/

theorem n1SegErrors_su (i : Nat) (v : Str) :
    n1SegErrors i ((("N1*SU*").data) ++ v) ≠ [] := by
  have hsplit : pySplit ('*') ((("N1*SU*").data) ++ v) =
      ("N1").data :: ("SU").data :: pySplit ('*') v := by
    have e : (("N1*SU*").data) ++ v =
        ("N1").data ++ ('*') :: ((("SU").data) ++ ('*') :: v) := rfl
    rw [e, pySplit_append_cons, pySplit_of_not_mem _ _ (by decide),
      pySplit_append_cons, pySplit_of_not_mem _ _ (by decide)]
    rfl
  simp only [n1SegErrors, hsplit]
  have hlen : 2 ≤ (("N1").data :: ("SU").data :: pySplit ('*') v).length := by
    simp only [List.length_cons]
    omega
  rw [if_pos hlen]
  have hgetD : (("N1").data :: ("SU").data :: pySplit ('*') v).getD 1 [] = ("SU").data := rfl
  rw [hgetD, if_pos (by decide)]
  simp

theorem n1ErrorsAux_ne_nil (x : Str) (hne : ∀ j, n1SegErrors j x ≠ []) :
    ∀ (l : List Str) (i : Nat), x ∈ l → n1ErrorsAux i l ≠ [] := by
  intro l
  induction l with
  | nil => intro i hx; cases hx
  | cons a rest ih =>
    intro i hx h
    simp only [n1ErrorsAux] at h
    rcases List.append_eq_nil.mp h with ⟨h1, h2⟩
    rcases List.mem_cons.1 hx with rfl | hx2
    · exact hne i h1
    · exact ih (i + 1) hx2 h2

theorem n1Check_invalid (segments : List Str) (v : Str)
    (hm : (("N1*SU*").data) ++ v ∈ segments) :
    (n1Check segments).valid = false := by
  have hpref : pyStartswith (("N1").data) ((("N1*SU*").data) ++ v) = true := rfl
  have hmf : (("N1*SU*").data) ++ v ∈
      segments.filter (fun s => pyStartswith (("N1").data) s) :=
    List.mem_filter.mpr ⟨hm, hpref⟩
  have h2 := n1ErrorsAux_ne_nil _ (fun j => n1SegErrors_su j v)
    (segments.filter (fun s => pyStartswith (("N1").data) s)) 0 hmf
  simp only [n1Check]
  split
  · cases herr : n1ErrorsAux 0 (segments.filter (fun s => pyStartswith (("N1").data) s)) with
    | nil => exact absurd herr h2
    | cons e es => rfl
  · rfl

theorem validate_ok_false_of_n1su (t v : Str)
    (hm : (("N1*SU*").data) ++ v ∈
      ((pySplit ('~') t).map pyStrip).filter (fun s => !s.isEmpty)) :
    (validate_edi_format t).ok = false := by
  have hval := n1Check_invalid _ v hm
  simp only [validate_edi_format]
  rw [if_neg]
  intro hall
  simp only [EdiChecks.allValid, Bool.and_eq_true] at hall
  obtain ⟨⟨⟨⟨⟨⟨⟨hisa, hgs⟩, hst⟩, hbig⟩, hn1⟩, hit1⟩, htds⟩, htr⟩ := hall
  have hn1v : (n1Check (((pySplit ('~') t).map pyStrip).filter
      (fun s => !s.isEmpty))).valid = true := hn1
  rw [hval] at hn1v
  exact Bool.false_ne_true hn1v

/-- C1 (amended): for every source document and timestamp on which the
conversion succeeds, running `validate_edi_format` on the generated EDI
text returns `ok = false` — the encoder's supplier `N1*SU` segment is
always rejected, so encode-then-validate never yields `ok = true`. -/
theorem claim_C1_amended (root : Elem) (now : PyDateTime) (edi : Str)
    (h : convert_xml_to_x12_content root now = some edi) :
    (validate_edi_format edi).ok = false := by
  rw [convert_xml_to_x12_content] at h
  rcases hx : x12Segments root now with _ | segs
  · rw [hx] at h; cases h
  · rw [hx] at h
    have hedi : pyJoin (("\x0a").data) segs = edi := Option.some.inj h
    subst hedi
    obtain ⟨cn, fd, dtm, hash, stIdx, hcn, hfd, hdtm, hhash, hidx, hsegs⟩ :=
      x12Segments_some root now segs hx
    obtain ⟨A, B, hdecomp, hAne⟩ :
        ∃ A B, buildPre root now cn fd dtm hash =
          A ++ n1Supplier (fixSupplier (extract_party_info root supplierPartyPath)) :: B ∧
          A ≠ [] := by
      refine ⟨create_ISA_segment (fixSupplier (extract_party_info root supplierPartyPath))
            (fixCustomer (extract_party_info root customerPartyPath)) cn now ::
          ([gsSeg (fixSupplier (extract_party_info root supplierPartyPath))
              (fixCustomer (extract_party_info root customerPartyPath)) cn now, stSeg cn,
            ("BIG*").data ++ fd ++ ("*").data ++ invoiceNumber root ++ ("~").data] ++
            nteSegs root ++ curSegs root ++ refSegs root ++ perSegs root),
        n3Segs (extract_postal_address root supplierPartyPath) ++
          n4Segs (extract_postal_address root supplierPartyPath) ++
          [n1Customer (fixCustomer (extract_party_info root customerPartyPath))] ++
          n3Segs (extract_postal_address root customerPartyPath) ++
          n4Segs (extract_postal_address root customerPartyPath) ++
          itdSegs root ++ dtm ++ fobSegs root ++ it1Segs (invoiceLines root) ++
          tdsSegs root ++ [cttSeg (invoiceLines root) hash], ?_, List.cons_ne_nil _ _⟩
      unfold buildPre
      simp [List.append_assoc]
    have hAall : ∀ x ∈ A, endsTilde x := fun x hx2 =>
      (buildPre_ok root now cn fd dtm hash hdtm x
        (by rw [hdecomp]; exact List.mem_append_left _ hx2)).1
    have hsegs2 : segs =
        A ++ n1Supplier (fixSupplier (extract_party_info root supplierPartyPath)) ::
          (B ++ [seSeg cn ((buildPre root now cn fd dtm hash).length - stIdx + 1),
            geSeg cn, ieaSeg cn]) := by
      rw [hsegs, hdecomp]
      simp [List.append_assoc]
    obtain ⟨tail, htail⟩ := pyJoin_append_cons (("\x0a").data) A
      (n1Supplier (fixSupplier (extract_party_info root supplierPartyPath)))
      (B ++ [seSeg cn ((buildPre root now cn fd dtm hash).length - stIdx + 1),
        geSeg cn, ieaSeg cn]) hAne
    obtain ⟨y, hy⟩ := pyJoin_endsTilde (("\x0a").data) A hAne hAall
    obtain ⟨u, hu⟩ :
        ∃ u, n1Supplier (fixSupplier (extract_party_info root supplierPartyPath)) =
          (("N1*SU*").data) ++ u := by
      refine ⟨(fixSupplier (extract_party_info root supplierPartyPath)).name ++
        ((("*").data) ++ ((fixSupplier (extract_party_info root supplierPartyPath)).qualifier ++
          ((("*").data) ++
            (pyStrip (fixSupplier (extract_party_info root supplierPartyPath)).id ++
              (("~").data))))), ?_⟩
      simp [n1Supplier, List.append_assoc]
    have htext : pyJoin (("\x0a").data) segs =
        y ++ ('~') :: (('\x0a') :: ((("N1*SU*").data) ++ (u ++ tail))) := by
      rw [hsegs2, htail, hy, hu]
      have e1 : ("~").data = [('~')] := by decide
      have e2 : ("\x0a").data = [('\x0a')] := by decide
      rw [e1, e2]
      simp [List.append_assoc]
    obtain ⟨hd, tl, hhd, hxs⟩ := pySplit_head_append ('~')
      (('\x0a') :: (("N1*SU*").data)) (u ++ tail) (by decide)
    have hsplit2 : pySplit ('~') (pyJoin (("\x0a").data) segs) =
        pySplit ('~') y ++ (((('\x0a') :: (("N1*SU*").data)) ++ hd) :: tl) := by
      rw [htext, pySplit_append_cons]
      exact congrArg (fun z => pySplit ('~') y ++ z) hxs
    have hc0 : ((('\x0a') :: (("N1*SU*").data)) ++ hd) ∈
        pySplit ('~') (pyJoin (("\x0a").data) segs) := by
      rw [hsplit2]
      exact List.mem_append_right _ (List.mem_cons_self _ _)
    obtain ⟨v, hv⟩ := pyStrip_nl_block hd
    have hmap : (("N1*SU*").data) ++ v ∈
        (pySplit ('~') (pyJoin (("\x0a").data) segs)).map pyStrip :=
      List.mem_map.mpr ⟨_, hc0, hv⟩
    have hfil : (("N1*SU*").data) ++ v ∈
        ((pySplit ('~') (pyJoin (("\x0a").data) segs)).map pyStrip).filter
          (fun s => !s.isEmpty) :=
      List.mem_filter.mpr ⟨hmap, rfl⟩
    exact validate_ok_false_of_n1su _ v hfil

set_option maxRecDepth 4000 in
theorem claim_C1_witness :
    ∃ edi, convert_xml_to_x12_content docFull tsRun = some edi ∧
      (validate_edi_format edi).ok = false :=
  ⟨_, rfl, claim_C1_amended docFull tsRun _ rfl⟩
